import Mathlib

/-!
# Verification of the qwery-core real-time session layer

Shallow embedding of the session/connection-management core of the
`qwery-core` repository:

* `src/qwery_core/server_components/websocket.py` — `ChatState`,
  `WebsocketAgentManager` (connect / disconnect / handle_message /
  cleanup, history trimming, LRU eviction, broadcast);
* `src/qwery_core/domain/protocols/__init__.py` — the wire protocol
  model (`ProtocolMessage`, `ProtocolPayload`, commands) and its
  (de)serialization.

Python dictionaries are modelled as association lists (`OrderedDict`
as an insertion-ordered association list whose front is the oldest
entry), machine time as natural-number seconds, and the side effects
of the manager (websocket accepts, JSON sends, closes, prompt-handler
invocations) as an explicit list of output events.  `uuid4()` draws
are supplied through an explicit `fresh : Nat → String` stream.
-/

namespace QweryCore

/-! ## History entries and `ChatState` (websocket.py lines 45-64) -/

/-- One element of `ChatState.history`: the Python code stores plain
`{"role": ..., "content": ...}` string dictionaries. -/
structure HistoryEntry where
  role : String
  content : String
deriving DecidableEq, Repr

/-- `msg.get("role") == "system"`. -/
def isSystem (e : HistoryEntry) : Bool := e.role == "system"

/-- The Python slice `l[-k:]` for an arbitrary integer `k` (the code
computes `other_msgs[-keep_count:]` where `keep_count` may be zero or
negative): for `k > 0` it is the last `k` elements, for `k = 0` it is
the whole list (since `-0 = 0`), and for `k < 0` it drops the first
`-k` elements. -/
def pySliceFromNeg (l : List α) (k : Int) : List α :=
  if 0 < k then l.drop (l.length - k.toNat)
  else l.drop (-k).toNat

/-- `ChatState` (websocket.py lines 45-50). `last_accessed` is a
natural-number timestamp. -/
structure ChatState where
  chat_id : String
  database_url : Option String := none
  history : List HistoryEntry := []
  last_accessed : Nat := 0
deriving DecidableEq, Repr

/-- The trimming step of `ChatState.add_to_history` (websocket.py
lines 56-62), applied to the already-appended history `h`: if the
length exceeds `M`, rebuild the history as all `system`-role entries
followed by the slice `other_msgs[-(M - len(system_msgs)):]`. -/
def trimmedHistory (M : Nat) (h : List HistoryEntry) : List HistoryEntry :=
  if h.length > M then
    let system_msgs := h.filter isSystem
    let other_msgs := h.filter (fun e => !(isSystem e))
    let keep_count : Int := (M : Int) - system_msgs.length
    system_msgs ++ pySliceFromNeg other_msgs keep_count
  else h

/-- `ChatState.add_to_history` (websocket.py lines 52-64), with the
configured maximum `M` (`MAX_CHAT_HISTORY_LENGTH`, env-configurable,
default 100) and the current clock `now` made explicit: append the
entry, apply the trimming step, refresh `last_accessed`. -/
def ChatState.add_to_history (M : Nat) (s : ChatState)
    (role content : String) (now : Nat) : ChatState :=
  { s with history := trimmedHistory M (s.history ++ [⟨role, content⟩]),
           last_accessed := now }

/-- Count of `system`-role entries in a history. -/
def sysCount (l : List HistoryEntry) : Nat := (l.filter isSystem).length

/-- All `system`-role entries precede all non-`system` entries. -/
def sysFirst (l : List HistoryEntry) : Prop :=
  l.filter isSystem ++ l.filter (fun e => !(isSystem e)) = l

instance (l : List HistoryEntry) : Decidable (sysFirst l) := by
  unfold sysFirst; infer_instance

/-! ## The wire protocol model (domain/protocols/__init__.py)

JSON values (the wire dictionary form produced by `model_dump` /
consumed by `model_validate`) are modelled by `JValue`; Python
`Dict[str, Any]` fields become `List (String × JValue)` association
lists (JSON objects), looked up first-match like the non-duplicate
dictionaries the codec actually produces. -/

/-- A JSON value. -/
inductive JValue where
  | null
  | str (s : String)
  | num (n : Int)
  | bool (b : Bool)
  | arr (xs : List JValue)
  | obj (fields : List (String × JValue))

/-- `MessageRole` enum (protocols lines 11-15). -/
inductive MessageRole where
  | USER | SYSTEM | ASSISTANT | DEVELOPER
deriving DecidableEq, Repr

def MessageRole.toWire : MessageRole → String
  | .USER => "user"
  | .SYSTEM => "system"
  | .ASSISTANT => "assistant"
  | .DEVELOPER => "developer"

def MessageRole.ofWire : String → Option MessageRole
  | "user" => some .USER
  | "system" => some .SYSTEM
  | "assistant" => some .ASSISTANT
  | "developer" => some .DEVELOPER
  | _ => none

/-- `CommandType` enum (protocols lines 23-27). -/
inductive CommandType where
  | SET | GET | LIST | STATUS
deriving DecidableEq, Repr

def CommandType.toWire : CommandType → String
  | .SET => "Set"
  | .GET => "Get"
  | .LIST => "List"
  | .STATUS => "Status"

def CommandType.ofWire : String → Option CommandType
  | "Set" => some .SET
  | "Get" => some .GET
  | "List" => some .LIST
  | "Status" => some .STATUS
  | _ => none

/-- `SetCommandArgumentType` enum (protocols lines 30-36). -/
inductive SetCommandArgumentType where
  | ROLE | MODEL | DATABASE | DATABASE_UPPER | DATABASE_URL | DATABASE_URL_UPPER
deriving DecidableEq, Repr

def SetCommandArgumentType.toWire : SetCommandArgumentType → String
  | .ROLE => "role"
  | .MODEL => "model"
  | .DATABASE => "database"
  | .DATABASE_UPPER => "Database"
  | .DATABASE_URL => "database_url"
  | .DATABASE_URL_UPPER => "DATABASE_URL"

def SetCommandArgumentType.ofWire : String → Option SetCommandArgumentType
  | "role" => some .ROLE
  | "model" => some .MODEL
  | "database" => some .DATABASE
  | "Database" => some .DATABASE_UPPER
  | "database_url" => some .DATABASE_URL
  | "DATABASE_URL" => some .DATABASE_URL_UPPER
  | _ => none

/-- `MessageKind` enum (protocols lines 45-55). -/
inductive MessageKind where
  | HANDSHAKE | MESSAGE | CHUNK | REASONING | TOOL | STATUS | HEARTBEAT
  | COMMAND | ERROR | USAGE
deriving DecidableEq, Repr

def MessageKind.toWire : MessageKind → String
  | .HANDSHAKE => "Handshake"
  | .MESSAGE => "Message"
  | .CHUNK => "Chunk"
  | .REASONING => "Reasoning"
  | .TOOL => "Tool"
  | .STATUS => "Status"
  | .HEARTBEAT => "Heartbeat"
  | .COMMAND => "Command"
  | .ERROR => "Error"
  | .USAGE => "Usage"

def MessageKind.ofWire : String → Option MessageKind
  | "Handshake" => some .HANDSHAKE
  | "Message" => some .MESSAGE
  | "Chunk" => some .CHUNK
  | "Reasoning" => some .REASONING
  | "Tool" => some .TOOL
  | "Status" => some .STATUS
  | "Heartbeat" => some .HEARTBEAT
  | "Command" => some .COMMAND
  | "Error" => some .ERROR
  | "Usage" => some .USAGE
  | _ => none

/-- `ClientHandshakeRequest` (protocols lines 58-62). -/
structure ClientHandshakeRequest where
  project_id : String
  chat_id : String
deriving DecidableEq, Repr

/-- `ErrorMessage` (protocols lines 65-71). -/
structure ErrorMessage where
  error_code : String
  message : String
  data : Option (List (String × JValue)) := none
  uuid : String

/-- `Heartbeat` (protocols lines 74-75): an empty model. -/
structure Heartbeat
deriving DecidableEq, Repr

/-- `ToolCall` (protocols lines 78-82). -/
structure ToolCall where
  id : String
  call_id : String
  name : String
  arguments : List (String × JValue)

/-- `ToolMessage` (protocols lines 92-94). -/
structure ToolMessage where
  tool_calls : List ToolCall
  reasoning : Option String := none

/-- `MessageContent` (protocols lines 97-101). -/
structure MessageContent where
  role : MessageRole
  message_type : String
  content : String
  metadata : Option (List (String × JValue)) := none

/-- `SetCommandArgument` (protocols lines 117-119). -/
structure SetCommandArgument where
  key : SetCommandArgumentType
  value : String
deriving DecidableEq, Repr

/-- `GetCommandArgument` (protocols lines 122-123). -/
structure GetCommandArgument where
  value : String
deriving DecidableEq, Repr

/-- The `Union[SetCommandArgument, GetCommandArgument, Dict[str, Any]]`
type of `Command.arguments` (protocols line 128). -/
inductive CommandArguments where
  | setArg (a : SetCommandArgument)
  | getArg (a : GetCommandArgument)
  | rawDict (d : List (String × JValue))

/-- `Command` (protocols lines 126-128). -/
structure Command where
  command : CommandType
  arguments : CommandArguments

/-- `ProtocolPayload` (protocols lines 149-158): each field is an
optional variant, `None` by default. -/
structure ProtocolPayload where
  heartbeat : Option Heartbeat := none
  handshake : Option ClientHandshakeRequest := none
  error : Option ErrorMessage := none
  message : Option MessageContent := none
  reasoning : Option MessageContent := none
  tool : Option ToolMessage := none
  command : Option Command := none

/-- `ProtocolPayload.get_payload_type` (protocols lines 175-190):
first populated field wins. -/
def ProtocolPayload.get_payload_type (p : ProtocolPayload) : String :=
  if p.heartbeat.isSome then "heartbeat"
  else if p.handshake.isSome then "handshake"
  else if p.error.isSome then "error"
  else if p.message.isSome then "message"
  else if p.reasoning.isSome then "reasoning"
  else if p.tool.isSome then "tool"
  else if p.command.isSome then "command"
  else "unknown"

/-- `ProtocolMessage` (protocols lines 193-200). -/
structure ProtocolMessage where
  id : String
  kind : MessageKind
  payload : ProtocolPayload
  from_ : String
  «to» : String

/-- `ProtocolMessage.create` (protocols lines 206-221); the `uuid4()`
drawn when `message_id` is `None` is supplied as `message_id` here. -/
def ProtocolMessage.create (kind : MessageKind) (payload : ProtocolPayload)
    (from_ «to» message_id : String) : ProtocolMessage :=
  { id := message_id, kind := kind, payload := payload, from_ := from_, «to» := «to» }

/-- `create_handshake_message` (protocols lines 240-256). -/
def create_handshake_message (project_id chat_id from_ «to» message_id : String) :
    ProtocolMessage :=
  ProtocolMessage.create .HANDSHAKE
    { handshake := some ⟨project_id, chat_id⟩ } from_ «to» message_id

/-- `create_text_message` (protocols lines 259-282), with the default
`message_type="text"` and no metadata as used throughout
websocket.py. -/
def create_text_message (role : MessageRole) (content from_ «to» message_id : String) :
    ProtocolMessage :=
  ProtocolMessage.create .MESSAGE
    { message := some { role := role, message_type := "text", content := content } }
    from_ «to» message_id

/-- `create_error_message` (protocols lines 285-306): draws one
`uuid4()` for the error payload and (via `create`) one for the message
id; both are explicit arguments here. -/
def create_error_message (error_code message : String)
    (data : Option (List (String × JValue))) (from_ «to» uuid message_id : String) :
    ProtocolMessage :=
  ProtocolMessage.create .ERROR
    { error := some { error_code := error_code, message := message,
                      data := data, uuid := uuid } }
    from_ «to» message_id

/-! ## Serialization (`model_dump(by_alias=True)`, i.e. `to_dict`) -/

/-- Dump of an `Optional[str]` field: `None` becomes JSON `null`. -/
def jOptStr : Option String → JValue
  | none => .null
  | some s => .str s

/-- Dump of an `Optional[Dict[str, Any]]` field. -/
def jOptObj : Option (List (String × JValue)) → JValue
  | none => .null
  | some d => .obj d

def ClientHandshakeRequest.model_dump (c : ClientHandshakeRequest) : JValue :=
  .obj [("projectId", .str c.project_id), ("chatId", .str c.chat_id)]

def ErrorMessage.model_dump (e : ErrorMessage) : JValue :=
  .obj [("errorCode", .str e.error_code), ("message", .str e.message),
        ("data", jOptObj e.data), ("uuid", .str e.uuid)]

def Heartbeat.model_dump (_ : Heartbeat) : JValue := .obj []

def ToolCall.model_dump (t : ToolCall) : JValue :=
  .obj [("id", .str t.id), ("call_id", .str t.call_id), ("name", .str t.name),
        ("arguments", .obj t.arguments)]

def ToolMessage.model_dump (t : ToolMessage) : JValue :=
  .obj [("tool_calls", .arr (t.tool_calls.map ToolCall.model_dump)),
        ("reasoning", jOptStr t.reasoning)]

def MessageContent.model_dump (m : MessageContent) : JValue :=
  .obj [("role", .str m.role.toWire), ("message_type", .str m.message_type),
        ("content", .str m.content), ("metadata", jOptObj m.metadata)]

def SetCommandArgument.model_dump (a : SetCommandArgument) : JValue :=
  .obj [("key", .str a.key.toWire), ("value", .str a.value)]

def GetCommandArgument.model_dump (a : GetCommandArgument) : JValue :=
  .obj [("value", .str a.value)]

def CommandArguments.model_dump : CommandArguments → JValue
  | .setArg a => a.model_dump
  | .getArg a => a.model_dump
  | .rawDict d => .obj d

def Command.model_dump (c : Command) : JValue :=
  .obj [("command", .str c.command.toWire), ("arguments", c.arguments.model_dump)]

/-- An optional object entry: `[]` when the field is `None`, else one
aliased key/value pair.  `ProtocolPayload.model_dump` (protocols lines
160-162) removes `None`-valued variants from the dumped dictionary. -/
def optSegment (name : String) (o : Option α) (d : α → JValue) :
    List (String × JValue) :=
  match o with
  | none => []
  | some x => [(name, d x)]

/-- `ProtocolPayload.model_dump` with `by_alias=True` and `None`
variants filtered out (protocols lines 160-162). -/
def ProtocolPayload.model_dump (p : ProtocolPayload) : JValue :=
  .obj (optSegment "Heartbeat" p.heartbeat Heartbeat.model_dump ++
        optSegment "Handshake" p.handshake ClientHandshakeRequest.model_dump ++
        optSegment "Error" p.error ErrorMessage.model_dump ++
        optSegment "Message" p.message MessageContent.model_dump ++
        optSegment "Reasoning" p.reasoning MessageContent.model_dump ++
        optSegment "Tool" p.tool ToolMessage.model_dump ++
        optSegment "Command" p.command Command.model_dump)

/-- `ProtocolMessage.model_dump` / `to_dict` (protocols lines
223-234): fixed envelope keys, `kind` as its enum value. -/
def ProtocolMessage.model_dump (m : ProtocolMessage) : JValue :=
  .obj [("id", .str m.id), ("kind", .str m.kind.toWire),
        ("payload", m.payload.model_dump), ("from", .str m.from_),
        ("to", .str m.to)]

/-! ## Deserialization (`model_validate`)

Pydantic validation is modelled as a partial function returning
`none` on validation failure.  A field declared with an alias and
`populate_by_name` accepts the alias first, then the field name. -/

/-- Dictionary lookup on a JSON object's fields. -/
def jGet (fields : List (String × JValue)) (key : String) : Option JValue :=
  (fields.find? (fun p => p.1 == key)).map Prod.snd

/-- Alias-tolerant lookup: the alias wins over the field name. -/
def jGetAlias (fields : List (String × JValue)) (al nm : String) : Option JValue :=
  (jGet fields al).or (jGet fields nm)

def JValue.asStr : JValue → Option String
  | .str s => some s
  | _ => none

def JValue.asObj : JValue → Option (List (String × JValue))
  | .obj f => some f
  | _ => none

def JValue.asArr : JValue → Option (List JValue)
  | .arr xs => some xs
  | _ => none

/-- Validation of an optional (`= None` default) field: an absent or
`null` value is `None`; any other value must validate. -/
def decodeOpt (o : Option JValue) (v : JValue → Option α) : Option (Option α) :=
  match o with
  | none => some none
  | some .null => some none
  | some j => (v j).map some

def ClientHandshakeRequest.model_validate (v : JValue) :
    Option ClientHandshakeRequest := do
  let f ← v.asObj
  let project_id ← (jGetAlias f "projectId" "project_id").bind JValue.asStr
  let chat_id ← (jGetAlias f "chatId" "chat_id").bind JValue.asStr
  pure ⟨project_id, chat_id⟩

def ErrorMessage.model_validate (v : JValue) : Option ErrorMessage := do
  let f ← v.asObj
  let error_code ← (jGetAlias f "errorCode" "error_code").bind JValue.asStr
  let message ← (jGet f "message").bind JValue.asStr
  let data ← decodeOpt (jGet f "data") JValue.asObj
  let uuid ← (jGet f "uuid").bind JValue.asStr
  pure ⟨error_code, message, data, uuid⟩

/-- A `Heartbeat` (a model with no fields) validates from any
dictionary. -/
def Heartbeat.model_validate (v : JValue) : Option Heartbeat := do
  let _ ← v.asObj
  pure ⟨⟩

def ToolCall.model_validate (v : JValue) : Option ToolCall := do
  let f ← v.asObj
  let id ← (jGet f "id").bind JValue.asStr
  let call_id ← (jGet f "call_id").bind JValue.asStr
  let name ← (jGet f "name").bind JValue.asStr
  let arguments ← (jGet f "arguments").bind JValue.asObj
  pure ⟨id, call_id, name, arguments⟩

/-- Validation of the `List[ToolCall]` field: every element must
validate. -/
def validateToolCalls : List JValue → Option (List ToolCall)
  | [] => some []
  | v :: rest => do
    let t ← ToolCall.model_validate v
    let ts ← validateToolCalls rest
    pure (t :: ts)

def ToolMessage.model_validate (v : JValue) : Option ToolMessage := do
  let f ← v.asObj
  let calls ← (jGet f "tool_calls").bind JValue.asArr
  let tool_calls ← validateToolCalls calls
  let reasoning ← decodeOpt (jGet f "reasoning") JValue.asStr
  pure ⟨tool_calls, reasoning⟩

def MessageContent.model_validate (v : JValue) : Option MessageContent := do
  let f ← v.asObj
  let role ← ((jGet f "role").bind JValue.asStr).bind MessageRole.ofWire
  let message_type ← (jGet f "message_type").bind JValue.asStr
  let content ← (jGet f "content").bind JValue.asStr
  let metadata ← decodeOpt (jGet f "metadata") JValue.asObj
  pure ⟨role, message_type, content, metadata⟩

def SetCommandArgument.model_validate (v : JValue) : Option SetCommandArgument := do
  let f ← v.asObj
  let key ← ((jGet f "key").bind JValue.asStr).bind SetCommandArgumentType.ofWire
  let value ← (jGet f "value").bind JValue.asStr
  pure ⟨key, value⟩

def GetCommandArgument.model_validate (v : JValue) : Option GetCommandArgument := do
  let f ← v.asObj
  let value ← (jGet f "value").bind JValue.asStr
  pure ⟨value⟩

/-- The `arguments` union, after `Command.validate_arguments`
(protocols lines 130-146): a dictionary containing a
`"SetCommandArgument"` (respectively `"GetCommandArgument"`) wrapper
key is converted by the validator to the typed argument (its inner
`"key"`/`"value"` entries are read by direct subscription; a malformed
wrapper raises, i.e. fails validation); any other dictionary is an
exact type match for the `Dict[str, Any]` member of
`Union[SetCommandArgument, GetCommandArgument, Dict[str, Any]]` and is
kept as a raw dictionary by pydantic v2's smart union, which prefers
exact-type matches over dict-into-model coercion — typed arguments
only ever arise from the wrapper conversion (or from already-typed
model instances, which do not occur in wire input); a non-dict fails
all three members. -/
def decodeCommandArguments (v : JValue) : Option CommandArguments :=
  match v with
  | .obj af =>
    match jGet af "SetCommandArgument" with
    | some sv =>
      (do
        let sf ← sv.asObj
        let key ← ((jGet sf "key").bind JValue.asStr).bind SetCommandArgumentType.ofWire
        let value ← (jGet sf "value").bind JValue.asStr
        pure (CommandArguments.setArg ⟨key, value⟩))
    | none =>
      match jGet af "GetCommandArgument" with
      | some gv =>
        (do
          let gf ← gv.asObj
          let value ← (jGet gf "value").bind JValue.asStr
          pure (CommandArguments.getArg ⟨value⟩))
      | none => some (.rawDict af)
  | _ => none

def Command.model_validate (v : JValue) : Option Command := do
  let f ← v.asObj
  let command ← ((jGet f "command").bind JValue.asStr).bind CommandType.ofWire
  let argv ← jGet f "arguments"
  let arguments ← decodeCommandArguments argv
  pure ⟨command, arguments⟩

def ProtocolPayload.model_validate (v : JValue) : Option ProtocolPayload := do
  let f ← v.asObj
  let heartbeat ← decodeOpt (jGetAlias f "Heartbeat" "heartbeat") Heartbeat.model_validate
  let handshake ← decodeOpt (jGetAlias f "Handshake" "handshake")
    ClientHandshakeRequest.model_validate
  let error ← decodeOpt (jGetAlias f "Error" "error") ErrorMessage.model_validate
  let message ← decodeOpt (jGetAlias f "Message" "message") MessageContent.model_validate
  let reasoning ← decodeOpt (jGetAlias f "Reasoning" "reasoning")
    MessageContent.model_validate
  let tool ← decodeOpt (jGetAlias f "Tool" "tool") ToolMessage.model_validate
  let command ← decodeOpt (jGetAlias f "Command" "command") Command.model_validate
  pure ⟨heartbeat, handshake, error, message, reasoning, tool, command⟩

/-- `ProtocolMessage.model_validate`: the decoding entry point used by
the websocket endpoint (websocket.py line 515). -/
def ProtocolMessage.model_validate (v : JValue) : Option ProtocolMessage := do
  let f ← v.asObj
  let id ← (jGet f "id").bind JValue.asStr
  let kind ← ((jGet f "kind").bind JValue.asStr).bind MessageKind.ofWire
  let payload ← (jGet f "payload").bind ProtocolPayload.model_validate
  let from_ ← (jGetAlias f "from" "from_").bind JValue.asStr
  let «to» ← (jGet f "to").bind JValue.asStr
  pure ⟨id, kind, payload, from_, «to»⟩

/-! ## Round-trip lemmas for the codec -/

theorem messageRole_ofWire_toWire (r : MessageRole) :
    MessageRole.ofWire r.toWire = some r := by cases r <;> rfl

theorem commandType_ofWire_toWire (c : CommandType) :
    CommandType.ofWire c.toWire = some c := by cases c <;> rfl

theorem setArgType_ofWire_toWire (k : SetCommandArgumentType) :
    SetCommandArgumentType.ofWire k.toWire = some k := by cases k <;> rfl

theorem messageKind_ofWire_toWire (k : MessageKind) :
    MessageKind.ofWire k.toWire = some k := by cases k <;> rfl

theorem handshakeReq_validate_dump (c : ClientHandshakeRequest) :
    ClientHandshakeRequest.model_validate c.model_dump = some c := by
  cases c; rfl

theorem errorMessage_validate_dump (e : ErrorMessage) :
    ErrorMessage.model_validate e.model_dump = some e := by
  rcases e with ⟨ec, msg, data, uuid⟩; cases data <;> rfl

theorem heartbeat_validate_dump (h : Heartbeat) :
    Heartbeat.model_validate h.model_dump = some h := rfl

theorem toolCall_validate_dump (t : ToolCall) :
    ToolCall.model_validate t.model_dump = some t := by
  cases t; rfl

theorem toolCallList_validate_dump (l : List ToolCall) :
    validateToolCalls (l.map ToolCall.model_dump) = some l := by
  induction l with
  | nil => rfl
  | cons hd tl ih =>
    simp [validateToolCalls, toolCall_validate_dump, ih]

theorem toolMessage_validate_dump (t : ToolMessage) :
    ToolMessage.model_validate t.model_dump = some t := by
  rcases t with ⟨calls, reasoning⟩
  cases reasoning <;>
    simp [ToolMessage.model_validate, ToolMessage.model_dump, jGet, JValue.asObj,
      JValue.asArr, JValue.asStr, jOptStr, toolCallList_validate_dump, decodeOpt]

theorem messageContent_validate_dump (m : MessageContent) :
    MessageContent.model_validate m.model_dump = some m := by
  rcases m with ⟨role, mt, content, md⟩
  cases role <;> cases md <;> rfl

theorem setArgument_validate_dump (a : SetCommandArgument) :
    SetCommandArgument.model_validate a.model_dump = some a := by
  rcases a with ⟨key, value⟩; cases key <;> rfl

theorem getArgument_validate_dump (a : GetCommandArgument) :
    GetCommandArgument.model_validate a.model_dump = some a := by
  cases a; rfl

/-- The command-argument variants whose wire form re-validates to the
same variant: exactly the raw dictionaries containing neither wrapper
key.  A typed `Set`/`Get` argument dumps to a flat dictionary, which
re-validates as the plain-dictionary union member (so it never
round-trips), and a wrapper-keyed raw dictionary is converted to a
typed argument by `validate_arguments`. -/
def CommandArguments.roundtrips : CommandArguments → Prop
  | .setArg _ => False
  | .getArg _ => False
  | .rawDict d =>
    jGet d "SetCommandArgument" = none ∧ jGet d "GetCommandArgument" = none

theorem decodeCommandArguments_dump (a : CommandArguments) (h : a.roundtrips) :
    decodeCommandArguments a.model_dump = some a := by
  match a with
  | .setArg a => exact h.elim
  | .getArg a => exact h.elim
  | .rawDict d =>
    obtain ⟨h1, h2⟩ := h
    simp [decodeCommandArguments, CommandArguments.model_dump, h1, h2]

theorem command_validate_dump (c : Command) (h : c.arguments.roundtrips) :
    Command.model_validate c.model_dump = some c := by
  rcases c with ⟨cmd, args⟩
  simp [Command.model_validate, Command.model_dump, jGet, JValue.asObj, JValue.asStr,
    commandType_ofWire_toWire, decodeCommandArguments_dump args h]

theorem jGet_append (l₁ l₂ : List (String × JValue)) (k : String) :
    jGet (l₁ ++ l₂) k = (jGet l₁ k).or (jGet l₂ k) := by
  unfold jGet
  rw [List.find?_append]
  cases List.find? (fun p => p.1 == k) l₁ <;> simp

theorem jGet_optSegment_self (name : String) (o : Option α) (d : α → JValue) :
    jGet (optSegment name o d) name = o.map d := by
  cases o <;> simp [optSegment, jGet]

theorem jGet_optSegment_ne (name : String) (o : Option α) (d : α → JValue)
    (k : String) (h : (name == k) = false) :
    jGet (optSegment name o d) k = none := by
  cases o <;> simp [optSegment, jGet, h]

/-- Every model dump is a JSON object (in particular never `null`),
so validating an optional model field dumped from `o` recovers `o`. -/
theorem decodeOpt_map_dump {α : Type} (o : Option α) (d : α → JValue)
    (v : JValue → Option α) (hobj : ∀ x, (d x).asObj.isSome)
    (hrt : ∀ x, v (d x) = some x) :
    decodeOpt (o.map d) v = some o := by
  cases o with
  | none => rfl
  | some x =>
    have hx := hobj x
    cases hd : d x with
    | obj fields =>
      simp only [Option.map_some']
      rw [hd]
      show (v (JValue.obj fields)).map some = some (some x)
      rw [← hd, hrt x]
      rfl
    | null => rw [hd] at hx; simp [JValue.asObj] at hx
    | str s => rw [hd] at hx; simp [JValue.asObj] at hx
    | num n => rw [hd] at hx; simp [JValue.asObj] at hx
    | bool b => rw [hd] at hx; simp [JValue.asObj] at hx
    | arr xs => rw [hd] at hx; simp [JValue.asObj] at hx

theorem decodeOpt_heartbeat (o : Option Heartbeat) :
    decodeOpt (o.map Heartbeat.model_dump) Heartbeat.model_validate = some o :=
  decodeOpt_map_dump o _ _ (fun x => by cases x; rfl) heartbeat_validate_dump

theorem decodeOpt_handshake (o : Option ClientHandshakeRequest) :
    decodeOpt (o.map ClientHandshakeRequest.model_dump)
      ClientHandshakeRequest.model_validate = some o :=
  decodeOpt_map_dump o _ _ (fun x => by cases x; rfl) handshakeReq_validate_dump

theorem decodeOpt_error (o : Option ErrorMessage) :
    decodeOpt (o.map ErrorMessage.model_dump) ErrorMessage.model_validate = some o :=
  decodeOpt_map_dump o _ _ (fun x => by cases x; rfl) errorMessage_validate_dump

theorem decodeOpt_messageContent (o : Option MessageContent) :
    decodeOpt (o.map MessageContent.model_dump) MessageContent.model_validate = some o :=
  decodeOpt_map_dump o _ _ (fun x => by cases x; rfl) messageContent_validate_dump

theorem decodeOpt_tool (o : Option ToolMessage) :
    decodeOpt (o.map ToolMessage.model_dump) ToolMessage.model_validate = some o :=
  decodeOpt_map_dump o _ _ (fun x => by cases x; rfl) toolMessage_validate_dump

theorem decodeOpt_command (o : Option Command)
    (h : ∀ c ∈ o, c.arguments.roundtrips) :
    decodeOpt (o.map Command.model_dump) Command.model_validate = some o := by
  cases o with
  | none => rfl
  | some c =>
    have h1 : decodeOpt ((some c).map Command.model_dump) Command.model_validate
        = (Command.model_validate (Command.model_dump c)).map some := rfl
    rw [h1, command_validate_dump c (h c rfl)]
    rfl

theorem protocolPayload_validate_dump (p : ProtocolPayload)
    (h : ∀ c ∈ p.command, c.arguments.roundtrips) :
    ProtocolPayload.model_validate p.model_dump = some p := by
  rcases p with ⟨hb, hs, er, ms, rs, tl, cm⟩
  simp only [ProtocolPayload.model_validate, ProtocolPayload.model_dump,
    JValue.asObj, jGetAlias, jGet_append, jGet_optSegment_self, jGet_optSegment_ne,
    String.reduceBEq, Option.or_none, Option.none_or, Option.bind_eq_bind, Option.some_bind,
    decodeOpt_heartbeat, decodeOpt_handshake, decodeOpt_error,
    decodeOpt_messageContent, decodeOpt_tool, decodeOpt_command cm h]
  rfl

theorem jGet_nil (key : String) : jGet [] key = none := rfl

theorem jGet_cons_of_eq {k key : String} {v : JValue}
    {rest : List (String × JValue)} (h : (k == key) = true) :
    jGet ((k, v) :: rest) key = some v := by
  unfold jGet
  rw [List.find?_cons]
  simp [h]

theorem jGet_cons_of_ne {k key : String} {v : JValue}
    {rest : List (String × JValue)} (h : (k == key) = false) :
    jGet ((k, v) :: rest) key = jGet rest key := by
  unfold jGet
  rw [List.find?_cons]
  simp [h]

/-- A `ProtocolMessage` whose command arguments (if any) re-validate
to the same variant: raw-dictionary arguments containing neither
wrapper key. -/
def ProtocolMessage.argumentsRoundtrip (m : ProtocolMessage) : Prop :=
  ∀ c ∈ m.payload.command, c.arguments.roundtrips

/-- C4 (amended): decoding the encoding of a `ProtocolMessage` returns
a structurally equal message for every message kind and every
populated payload variant, provided any command arguments are a raw
dictionary containing neither the `"SetCommandArgument"` nor the
`"GetCommandArgument"` wrapper key.  Typed `Set`/`Get` arguments never
round-trip: their flat dump re-validates as the plain-dictionary
member of the arguments union (see the counterexample). -/
theorem C4_decode_encode (m : ProtocolMessage) (h : m.argumentsRoundtrip) :
    ProtocolMessage.model_validate m.model_dump = some m := by
  rcases m with ⟨id, kind, payload, from_, tgt⟩
  simp only [ProtocolMessage.model_validate, ProtocolMessage.model_dump,
    JValue.asObj, JValue.asStr, jGetAlias, jGet_cons_of_eq, jGet_cons_of_ne,
    jGet_nil, String.reduceBEq, Option.map_some',
    Option.or_none, Option.none_or, Option.bind_eq_bind, Option.some_bind,
    messageKind_ofWire_toWire, protocolPayload_validate_dump payload h]
  rfl

/-- A concrete command message whose arguments are a plain dictionary
without wrapper keys — the only argument form that survives
re-validation unchanged. -/
def c4WitnessMsg : ProtocolMessage :=
  ProtocolMessage.create .COMMAND
    { command := some ⟨.SET, .rawDict [("key", .str "database"),
        ("value", .str "sqlite:///demo.db")]⟩ }
    "client" "server" "msg-1"

/-- Witness for C4 at a concrete command message with wrapper-free
raw-dictionary arguments. -/
theorem C4_decode_encode_witness :
    c4WitnessMsg.argumentsRoundtrip ∧
      ProtocolMessage.model_validate c4WitnessMsg.model_dump = some c4WitnessMsg := by
  have hwf : c4WitnessMsg.argumentsRoundtrip := by
    intro c hc
    rw [Option.mem_def] at hc
    cases hc
    exact ⟨rfl, rfl⟩
  exact ⟨hwf, C4_decode_encode c4WitnessMsg hwf⟩

/-- A command message with typed `Set` arguments — the very case the
claim singles out ("including commands with Set/Get arguments"). -/
def c4CexMsg : ProtocolMessage :=
  ProtocolMessage.create .COMMAND
    { command := some ⟨.SET, .setArg ⟨.DATABASE, "x"⟩⟩ }
    "client" "server" "msg-2"

/-- C4 counterexample: a typed `SetCommandArgument` dumps to the flat
dictionary `{"key": "database", "value": "x"}`, which carries no
wrapper key and so re-validates as the plain-dictionary member of the
arguments union, so `decode(encode(m)) ≠ m` precisely for commands
with typed `Set`/`Get` arguments. -/
theorem C4_cex :
    ProtocolMessage.model_validate c4CexMsg.model_dump ≠ some c4CexMsg := by
  intro hcontra
  rw [show ProtocolMessage.model_validate c4CexMsg.model_dump =
      some (ProtocolMessage.create .COMMAND
        { command := some ⟨.SET, .rawDict [("key", JValue.str "database"),
            ("value", JValue.str "x")]⟩ }
        "client" "server" "msg-2") from rfl] at hcontra
  simp [ProtocolMessage.create, c4CexMsg] at hcontra

/-! ## Claim C1: history trimming -/

/-- The most recent `k` entries of a list (all of it when it has at
most `k`). -/
def lastN (k : Nat) (l : List α) : List α := l.drop (l.length - k)

theorem trimmedHistory_spec (M : Nat) (h : List HistoryEntry)
    (hcount : sysCount h < M) (horder : sysFirst h) :
    (trimmedHistory M h).length ≤ M ∧
    (trimmedHistory M h).filter isSystem = h.filter isSystem ∧
    (trimmedHistory M h).filter (fun e => !(isSystem e))
      = lastN (M - sysCount h) (h.filter (fun e => !(isSystem e))) ∧
    (trimmedHistory M h).Sublist h := by
  have hpart : h.length = (h.filter isSystem).length
      + (h.filter (fun e => !(isSystem e))).length :=
    List.length_eq_length_filter_add isSystem
  have hsc : sysCount h = (h.filter isSystem).length := rfl
  have hsys : ∀ e ∈ h.filter isSystem, isSystem e = true :=
    fun e he => List.of_mem_filter he
  have hoth : ∀ e ∈ h.filter (fun e => !(isSystem e)), isSystem e = false := by
    intro e he
    have := List.of_mem_filter he
    simpa using this
  by_cases hlen : h.length > M
  · have hEq : trimmedHistory M h
        = h.filter isSystem ++
          pySliceFromNeg (h.filter (fun e => !(isSystem e)))
            ((M : Int) - (h.filter isSystem).length) := by
      simp [trimmedHistory, hlen]
    have hSlt : (h.filter isSystem).length < M := hcount
    have hpos : (0 : Int) < (M : Int) - (h.filter isSystem).length := by omega
    have hslice : pySliceFromNeg (h.filter (fun e => !(isSystem e)))
        ((M : Int) - (h.filter isSystem).length)
        = (h.filter (fun e => !(isSystem e))).drop
            ((h.filter (fun e => !(isSystem e))).length
              - (M - (h.filter isSystem).length)) := by
      unfold pySliceFromNeg
      rw [if_pos hpos]
      congr 1
      omega
    rw [hEq, hslice]
    refine ⟨?_, ?_, ?_, ?_⟩
    · rw [List.length_append, List.length_drop]
      omega
    · rw [List.filter_append]
      have h1 : (h.filter isSystem).filter isSystem = h.filter isSystem :=
        List.filter_eq_self.2 hsys
      have h2 : ((h.filter (fun e => !(isSystem e))).drop
          ((h.filter (fun e => !(isSystem e))).length
            - (M - (h.filter isSystem).length))).filter isSystem = [] := by
        refine List.filter_eq_nil_iff.2 fun e he => ?_
        have hmem : e ∈ h.filter (fun e => !(isSystem e)) :=
          (List.drop_sublist _ _).subset he
        simp [hoth e hmem]
      rw [h1, h2, List.append_nil]
    · rw [List.filter_append]
      have h1 : (h.filter isSystem).filter (fun e => !(isSystem e)) = [] := by
        refine List.filter_eq_nil_iff.2 fun e he => ?_
        simp [hsys e he]
      have h2 : ((h.filter (fun e => !(isSystem e))).drop
          ((h.filter (fun e => !(isSystem e))).length
            - (M - (h.filter isSystem).length))).filter (fun e => !(isSystem e))
          = (h.filter (fun e => !(isSystem e))).drop
              ((h.filter (fun e => !(isSystem e))).length
                - (M - (h.filter isSystem).length)) := by
        refine List.filter_eq_self.2 fun e he => ?_
        have hmem : e ∈ h.filter (fun e => !(isSystem e)) :=
          (List.drop_sublist _ _).subset he
        simp [hoth e hmem]
      rw [h1, h2, List.nil_append]
      rfl
    · have hsub : (h.filter isSystem ++
          (h.filter (fun e => !(isSystem e))).drop
            ((h.filter (fun e => !(isSystem e))).length
              - (M - (h.filter isSystem).length))).Sublist
          (h.filter isSystem ++ h.filter (fun e => !(isSystem e))) :=
        List.Sublist.append_left (List.drop_sublist _ _) _
      rwa [horder] at hsub
  · have hEq : trimmedHistory M h = h := by simp [trimmedHistory, hlen]
    have hle : h.length ≤ M := by omega
    rw [hEq]
    refine ⟨hle, rfl, ?_, List.Sublist.refl h⟩
    have hzero : (h.filter (fun e => !(isSystem e))).length - (M - sysCount h) = 0 := by
      omega
    unfold lastN
    rw [hzero, List.drop_zero]

/-- C1 (amended): after an append, provided the appended history has
fewer than `M` `system`-role entries and its `system` entries all
precede its non-`system` entries, the history length is at most `M`,
every (pre-existing or new) `system`-role entry is still present, the
retained non-`system` entries are exactly the most recent
`M - system_count` of them, and the result is an order-preserving
subsequence of the appended history.  Without those two provisos the
claim fails (see the counterexample): the trim moves `system` entries
to the front, and a `system` count at or above `M` defeats the bound
through the Python negative-slice semantics. -/
theorem C1_history_trim (M : Nat) (s : ChatState) (role content : String) (now : Nat)
    (hcount : sysCount (s.history ++ [HistoryEntry.mk role content]) < M)
    (horder : sysFirst (s.history ++ [HistoryEntry.mk role content])) :
    (ChatState.add_to_history M s role content now).history.length ≤ M ∧
    (ChatState.add_to_history M s role content now).history.filter isSystem
      = (s.history ++ [HistoryEntry.mk role content]).filter isSystem ∧
    (ChatState.add_to_history M s role content now).history.filter (fun e => !(isSystem e))
      = lastN (M - sysCount (s.history ++ [HistoryEntry.mk role content]))
          ((s.history ++ [HistoryEntry.mk role content]).filter (fun e => !(isSystem e))) ∧
    (ChatState.add_to_history M s role content now).history.Sublist
      (s.history ++ [HistoryEntry.mk role content]) :=
  trimmedHistory_spec M (s.history ++ [HistoryEntry.mk role content]) hcount horder

/-- The concrete pre-state for the C1 witness: one `system` entry
followed by two `user` entries. -/
def c1WitnessState : ChatState :=
  { chat_id := "c1",
    history := [⟨"system", "sys"⟩, ⟨"user", "a"⟩, ⟨"user", "b"⟩] }

/-- The concrete appended history for the C1 witness. -/
def c1WitnessAppended : List HistoryEntry :=
  c1WitnessState.history ++ [⟨"user", "c"⟩]

/-- Witness for C1 at `M = 3` on a history `[system, user a, user b]`
receiving a fourth entry `user c`: the trim keeps the `system` entry
plus the two most recent non-`system` entries. -/
theorem C1_history_trim_witness :
    (sysCount c1WitnessAppended < 3 ∧ sysFirst c1WitnessAppended) ∧
    ((ChatState.add_to_history 3 c1WitnessState "user" "c" 5).history.length ≤ 3 ∧
      (ChatState.add_to_history 3 c1WitnessState "user" "c" 5).history.filter isSystem
        = c1WitnessAppended.filter isSystem ∧
      (ChatState.add_to_history 3 c1WitnessState "user" "c" 5).history.filter
          (fun e => !(isSystem e))
        = lastN (3 - sysCount c1WitnessAppended)
            (c1WitnessAppended.filter (fun e => !(isSystem e))) ∧
      (ChatState.add_to_history 3 c1WitnessState "user" "c" 5).history.Sublist
        c1WitnessAppended) :=
  ⟨⟨by decide, by decide⟩,
    C1_history_trim 3 c1WitnessState "user" "c" 5 (by decide) (by decide)⟩

/-- The concrete pre-state for the C1 counterexample: two `user`
entries and no `system` entry. -/
def c1CexState : ChatState :=
  { chat_id := "c1", history := [⟨"user", "a"⟩, ⟨"user", "b"⟩] }

/-- C1 counterexample: with maximum `M = 2` and history
`[user a, user b]`, appending a `system` entry trims to
`[system s, user b]`, which is not an order-preserving subsequence of
`[user a, user b, system s]` — the code moves the `system` entry in
front of the older retained entry, so the relative order of retained
entries is not preserved as claimed. -/
theorem C1_cex :
    ¬ ((ChatState.add_to_history 2 c1CexState "system" "s" 1).history.Sublist
        (c1CexState.history ++ [⟨"system", "s"⟩])) := by
  decide

/-! ## TOON encoder (toon.py) -/

/-- Python `pat in s` for a non-empty pattern. -/
def strContains (s pat : String) : Bool := (s.splitOn pat).length != 1

/-- Python `str()` of a scalar cell value (`str` and `int` render as
themselves; `str()` of container values is abstracted — the SQL runner
only yields scalar cells, and `None`/`bool` are intercepted before
`str()` is reached). -/
def pyStr : JValue → String
  | .null => "None"
  | .str s => s
  | .num n => toString n
  | .bool b => if b then "True" else "False"
  | .arr _ => "<list>"
  | .obj _ => "<dict>"

/-- `_escape_toon_string` (toon.py lines 8-33). -/
def escape_toon_string (v : JValue) : String :=
  match v with
  | .null => "null"
  | .bool b => if b then "true" else "false"
  | v =>
    let str_value := pyStr v
    let needs_quoting :=
      strContains str_value "," || strContains str_value "\n" ||
      strContains str_value "\r" || (str_value.trim != str_value) ||
      ((str_value.startsWith "\"" || str_value.startsWith "'") &&
        (str_value.endsWith "\"" || str_value.endsWith "'")) ||
      (str_value == "")
    if needs_quoting then
      "\"" ++ ((str_value.replace "\\" "\\\\").replace "\"" "\\\"") ++ "\""
    else str_value

/-- `encode_query_results` (toon.py lines 36-66). -/
def encode_query_results (sql : String) (columns : List String)
    (rows : List (List JValue)) : String :=
  let lines := ["query: " ++ escape_toon_string (.str sql)]
  let lines :=
    if !columns.isEmpty && !rows.isEmpty then
      lines ++
        ["results[" ++ toString rows.length ++ "]\x7b" ++
          String.intercalate "," columns ++ "\x7d:"] ++
        rows.map (fun row =>
          "  " ++ String.intercalate "," (row.map escape_toon_string))
    else lines ++ ["results[0]:"]
  String.intercalate "\n" lines

/-! ## The session manager (websocket.py `WebsocketAgentManager`)

The manager's three shared dictionaries are association lists; the
`OrderedDict` of chat states is insertion-ordered with the oldest
entry at the front.  Transport and prompt-handler side effects are
recorded as an explicit event list.  The per-connection heartbeat
tasks and the background cleanup task are concurrency and are not part
of this state model; `cleanup` is modelled as one sweep. -/

abbrev ChatKey := String

/-- `WebsocketAgentManager._chat_key` (websocket.py lines 478-480). -/
def chat_key (project_id chat_id : String) : ChatKey :=
  project_id ++ ":" ++ chat_id

/-- `ChatConnection` (websocket.py lines 67-71); the websocket handle
is an opaque identifier and the heartbeat task is out of the model. -/
structure ChatConnection where
  websocket : Nat
  connected_at : Nat
deriving DecidableEq, Repr

/-- Python dictionary lookup on an association list. -/
def dictGet {α : Type} (m : List (ChatKey × α)) (k : ChatKey) : Option α :=
  (m.find? (fun p => p.1 == k)).map Prod.snd

/-- Python dictionary assignment: update in place, or append a new
entry at the end (insertion order). -/
def dictSet {α : Type} (m : List (ChatKey × α)) (k : ChatKey) (v : α) :
    List (ChatKey × α) :=
  match m with
  | [] => [(k, v)]
  | (k', v') :: rest =>
    if k' == k then (k', v) :: rest else (k', v') :: dictSet rest k v

/-- Python `dict.pop(k, None)`. -/
def dictPop {α : Type} (m : List (ChatKey × α)) (k : ChatKey) :
    List (ChatKey × α) :=
  m.filter (fun p => !(p.1 == k))

/-- `OrderedDict.move_to_end` for a present key. -/
def moveToEnd {α : Type} (m : List (ChatKey × α)) (k : ChatKey) :
    List (ChatKey × α) :=
  match dictGet m k with
  | none => m
  | some v => dictPop m k ++ [(k, v)]

/-- The shared mutable state of `WebsocketAgentManager` (websocket.py
lines 74-83). -/
structure ManagerState where
  connections : List (ChatKey × List ChatConnection) := []
  chat_states : List (ChatKey × ChatState) := []
  last_activity : List (ChatKey × Nat) := []

/-- The configurable limits (websocket.py lines 35-42), in seconds. -/
structure Config where
  max_connections_per_chat : Nat := 10
  max_chat_history_length : Nat := 100
  max_chat_states : Nat := 10000
  inactivity_timeout : Nat := 3600

/-- An observable side effect of a manager operation: a transport
accept, a JSON frame sent to one websocket, a close with a status
code, or an invocation of the external prompt handler with its
`(prompt, database_url, chat_history)` arguments. -/
inductive WsEvent where
  | accepted (ws : Nat)
  | sent (ws : Nat) (message : ProtocolMessage)
  | closed (ws : Nat) (code : Nat)
  | prompted (prompt : String) (database_url : Option String)
      (chat_history : List HistoryEntry)

/-- The result dictionary of the external prompt handler
(`handle_prompt`), as read by `handle_message`: `response.get("summary")`,
`response.get("sql", "")`, `response.get("columns") or []`,
`response.get("preview_rows") or []`. -/
structure AgentResponse where
  summary : Option String := none
  sql : String := ""
  columns : List String := []
  preview_rows : List (List JValue) := []

/-- `response.get(...)` post-processing and reply formatting
(websocket.py lines 260-297): the first non-empty summary line not
containing a skip marker, then an optional fenced TOON block. -/
def formatAgentReply (response : AgentResponse) : String :=
  let summary_text := (response.summary.getD "").trim
  let answer_lines :=
    if summary_text != "" then
      match ((summary_text.splitOn "\n").map String.trim).find?
          (fun l => l != "" &&
            !(["SQL:", "Preview:", "Results saved", "Query executed"].any
              (fun skip => strContains l skip))) with
      | some line => [line]
      | none => []
    else ["Query executed successfully."]
  let toon_lines :=
    if response.sql != "" then
      ["```toon",
       encode_query_results response.sql response.columns response.preview_rows,
       "```"]
    else []
  let final_content_parts :=
    [String.intercalate "\n" answer_lines] ++
      (if !toon_lines.isEmpty then ["", String.intercalate "\n" toon_lines] else [])
  String.intercalate "\n" final_content_parts

/-- `_broadcast` (websocket.py lines 430-447): one delivery attempt to
every connection registered under `key` whose websocket is not
excluded, in registration order. -/
def broadcastEvents (s : ManagerState) (key : ChatKey)
    (message : ProtocolMessage) (exclude : List Nat) : List WsEvent :=
  match dictGet s.connections key with
  | none => []
  | some conns =>
    (conns.filter (fun c => !(exclude.contains c.websocket))).map
      (fun c => WsEvent.sent c.websocket message)

/-- `_send_history` (websocket.py lines 380-394): one text frame per
history record, oldest first.  A record role outside the
`MessageRole` enum raises in Python; such records are skipped here
(histories produced by this manager only hold `user`/`assistant`
entries, where the two agree). -/
def sendHistoryFrames (ws : Nat) (st : ChatState) (fresh : Nat → String) :
    List WsEvent :=
  st.history.enum.filterMap (fun p =>
    match MessageRole.ofWire p.2.role with
    | some role =>
      some (WsEvent.sent ws
        (create_text_message role p.2.content "server" "client" (fresh (p.1 + 1))))
    | none => none)

/-- The lazy chat-state creation step of `connect` (websocket.py
lines 104-113): when the key is unseen, pop the front (oldest) entry
of the ordered store once the ceiling is reached — dropping its
activity record — and append a fresh state at the end.
`next(iter(...))` on an empty store raises in Python; that branch is
unreachable whenever the ceiling is positive. -/
def createStateIfAbsent (cfg : Config)
    (states : List (ChatKey × ChatState)) (lastAct : List (ChatKey × Nat))
    (key : ChatKey) (newState : ChatState) :
    List (ChatKey × ChatState) × List (ChatKey × Nat) :=
  if (dictGet states key).isNone then
    if states.length ≥ cfg.max_chat_states then
      match states with
      | [] => ([(key, newState)], lastAct)
      | (oldest_key, _) :: rest =>
        (rest ++ [(key, newState)], dictPop lastAct oldest_key)
    else (states ++ [(key, newState)], lastAct)
  else (states, lastAct)

/-- `WebsocketAgentManager.connect` (websocket.py lines 85-147):
accept the transport; lazily create the chat state for the key,
evicting the front of the ordered store when at the ceiling; move the
key to most-recently-used position; then reject with close code 1008
when the per-key connection cap is reached, otherwise register the
connection, refresh the activity clock, and send the handshake frame
followed by the history replay. -/
def connect (cfg : Config) (s : ManagerState) (ws : Nat)
    (project_id chat_id : String) (now : Nat) (fresh : Nat → String) :
    ManagerState × List WsEvent :=
  let key := chat_key project_id chat_id
  let newState : ChatState := { chat_id := chat_id, last_accessed := now }
  let pr := createStateIfAbsent cfg s.chat_states s.last_activity key newState
  let states1 := pr.1
  let lastAct1 := pr.2
  let states2 := moveToEnd states1 key
  let existing := ((dictGet s.connections key).getD []).length
  if existing ≥ cfg.max_connections_per_chat then
    ({ s with chat_states := states2, last_activity := lastAct1 },
      [WsEvent.accepted ws, WsEvent.closed ws 1008])
  else
    let conn : ChatConnection := { websocket := ws, connected_at := now }
    let conns2 := dictSet s.connections key
      (((dictGet s.connections key).getD []) ++ [conn])
    let lastAct2 := dictSet lastAct1 key now
    let chat_state := (dictGet states2 key).getD newState
    ({ connections := conns2, chat_states := states2, last_activity := lastAct2 },
      [WsEvent.accepted ws,
        WsEvent.sent ws (create_handshake_message project_id chat_state.chat_id
          "server" "client" (fresh 0))] ++
        sendHistoryFrames ws chat_state fresh)

/-- Removal of the first registered connection with the given
websocket (websocket.py lines 152-157). -/
def removeFirstWs : List ChatConnection → Nat → List ChatConnection
  | [], _ => []
  | c :: rest, ws =>
    if c.websocket == ws then rest else c :: removeFirstWs rest ws

/-- `WebsocketAgentManager.disconnect` (websocket.py lines 149-162):
drop the connection from the registry; when the key's connection list
becomes empty, pop the key from both the registry and the activity
map.  The chat state is left in place. -/
def disconnect (s : ManagerState) (ws : Nat) (project_id chat_id : String) :
    ManagerState :=
  let key := chat_key project_id chat_id
  match dictGet s.connections key with
  | none => s
  | some conns =>
    let conns' := removeFirstWs conns ws
    if conns'.isEmpty then
      { s with connections := dictPop s.connections key,
               last_activity := dictPop s.last_activity key }
    else { s with connections := dictSet s.connections key conns' }

/-- `WebsocketAgentManager._handle_command` (websocket.py lines
396-428): a `Set` command with a typed argument whose key is one of
`database`/`Database`/`database_url`/`DATABASE_URL` rewrites the chat
state's `database_url` and replies with a system-role confirmation;
everything else is silently ignored. -/
def handle_command (s1 : ManagerState) (ws : Nat) (message : ProtocolMessage)
    (key : ChatKey) (chat_state : ChatState) (fresh : Nat → String) :
    ManagerState × List WsEvent :=
  match message.payload.command with
  | none => (s1, [])
  | some command =>
    match command.command, command.arguments with
    | CommandType.SET, .setArg arg =>
      let updated : ChatState := { chat_state with database_url := some arg.value }
      let s2 : ManagerState := { s1 with chat_states := dictSet s1.chat_states key updated }
      if arg.key == .DATABASE || arg.key == .DATABASE_UPPER then
        (s2,
         [WsEvent.sent ws (create_text_message .SYSTEM
            ("Database context set to " ++ arg.value) "server" "client" (fresh 0))])
      else if arg.key == .DATABASE_URL || arg.key == .DATABASE_URL_UPPER then
        (s2,
         [WsEvent.sent ws (create_text_message .SYSTEM
            "Database URL updated." "server" "client" (fresh 0))])
      else (s1, [])
    | _, _ => (s1, [])

/-- `WebsocketAgentManager.handle_message` (websocket.py lines
164-315): refresh the activity clock; lazily create the chat state;
dispatch by kind/payload — heartbeat echo, command handling, an
`invalid_payload` error for a missing message variant, silence for a
non-user role, and otherwise a prompt-handler invocation whose failure
is sent to the sender and broadcast to the rest of the room and whose
success is appended twice to the history (with trimming) and broadcast
to the whole room.  The prompt handler (an external collaborator,
`handle_prompt`) is the `prompt` argument; the request context passed
through to it carries no information used by this layer. -/
def handle_message (cfg : Config) (s : ManagerState) (ws : Nat)
    (message : ProtocolMessage) (project_id chat_id : String) (now : Nat)
    (fresh : Nat → String)
    (prompt : String → Option String → List HistoryEntry →
      Except String AgentResponse) :
    ManagerState × List WsEvent :=
  let key := chat_key project_id chat_id
  let lastAct := dictSet s.last_activity key now
  let states :=
    if (dictGet s.chat_states key).isNone then
      s.chat_states ++ [(key, { chat_id := chat_id, last_accessed := now })]
    else s.chat_states
  let s1 : ManagerState :=
    { s with last_activity := lastAct, chat_states := states }
  let chat_state := (dictGet states key).getD { chat_id := chat_id }
  if message.kind == .HEARTBEAT || message.payload.get_payload_type == "heartbeat" then
    (s1, [WsEvent.sent ws (ProtocolMessage.create .HEARTBEAT message.payload
      "server" "client" (fresh 0))])
  else if message.kind == .COMMAND && message.payload.command.isSome then
    handle_command s1 ws message key chat_state fresh
  else
    match message.payload.message with
    | none =>
      (s1, [WsEvent.sent ws (create_error_message "invalid_payload"
        "Unsupported message payload." none "server" "client" (fresh 0) (fresh 1))])
    | some content =>
      if content.role != MessageRole.USER then (s1, [])
      else
        let pev := WsEvent.prompted content.content chat_state.database_url
          chat_state.history
        match prompt content.content chat_state.database_url chat_state.history with
        | .error exc =>
          let error_payload := create_error_message "agent_error" exc none
            "server" "client" (fresh 0) (fresh 1)
          (s1, [pev, WsEvent.sent ws error_payload] ++
            broadcastEvents s1 key error_payload [ws])
        | .ok response =>
          let contentOut := formatAgentReply response
          let assistant_message := create_text_message .ASSISTANT contentOut
            "server" "client" (fresh 0)
          let st2 := (chat_state.add_to_history cfg.max_chat_history_length
              "user" content.content now).add_to_history
              cfg.max_chat_history_length "assistant" contentOut now
          let s2 := { s1 with chat_states := dictSet s1.chat_states key st2 }
          (s2, [pev] ++ broadcastEvents s2 key assistant_message [])

/-- The over-capacity eviction loop of `cleanup` (websocket.py lines
365-378): while above the ceiling, pop the front entry when it has no
activity record or an expired one; stop at the first active front
entry.  Each iteration pops exactly one front entry, so the loop runs
at most `chat_states.length` iterations; the `fuel` argument (always
called with that length) makes the recursion structural. -/
def evictLoop (cfg : Config) (now : Nat) : Nat → ManagerState → ManagerState
  | 0, s => s
  | Nat.succ fuel, s =>
    if s.chat_states.length > cfg.max_chat_states then
      match s.chat_states with
      | [] => s
      | (oldest_key, _) :: rest =>
        match dictGet s.last_activity oldest_key with
        | some last_active =>
          if now - last_active > cfg.inactivity_timeout then
            let s2 : ManagerState :=
              { s with chat_states := rest,
                       last_activity := dictPop s.last_activity oldest_key }
            evictLoop cfg now fuel s2
          else s
        | none =>
          let s2 : ManagerState := { s with chat_states := rest }
          evictLoop cfg now fuel s2
    else s

/-- One iteration of the expiry sweep of `cleanup` (websocket.py lines
351-360): close every connection registered under the expired key with
code 1001 and pop the key from all three maps. -/
def cleanupExpiredStep (acc : ManagerState × List WsEvent) (key : ChatKey) :
    ManagerState × List WsEvent :=
  let conns := (dictGet acc.1.connections key).getD []
  (({ connections := dictPop acc.1.connections key,
      chat_states := dictPop acc.1.chat_states key,
      last_activity := dictPop acc.1.last_activity key } : ManagerState),
    acc.2 ++ conns.map (fun c => WsEvent.closed c.websocket 1001))

/-- `WebsocketAgentManager.cleanup` (websocket.py lines 341-378): for
every key whose activity record is older than the inactivity timeout,
close all its registered connections with code 1001 and pop the key
from the registry, activity map and state store; then run the
over-capacity eviction loop. -/
def cleanup (cfg : Config) (s : ManagerState) (now : Nat) :
    ManagerState × List WsEvent :=
  let expired := (s.last_activity.filter
    (fun p => now - p.2 > cfg.inactivity_timeout)).map Prod.fst
  let pr := expired.foldl cleanupExpiredStep (s, [])
  (evictLoop cfg now pr.1.chat_states.length pr.1, pr.2)

/-! ## Dictionary lemmas -/

theorem dictGet_cons_self {α : Type} {k' k : ChatKey} {v : α}
    {rest : List (ChatKey × α)} (h : (k' == k) = true) :
    dictGet ((k', v) :: rest) k = some v := by
  unfold dictGet
  rw [List.find?_cons]
  simp [h]

theorem dictGet_cons_ne {α : Type} {k' k : ChatKey} {v : α}
    {rest : List (ChatKey × α)} (h : (k' == k) = false) :
    dictGet ((k', v) :: rest) k = dictGet rest k := by
  unfold dictGet
  rw [List.find?_cons]
  simp [h]

theorem dictGet_append {α : Type} (m₁ m₂ : List (ChatKey × α)) (k : ChatKey) :
    dictGet (m₁ ++ m₂) k = (dictGet m₁ k).or (dictGet m₂ k) := by
  unfold dictGet
  rw [List.find?_append]
  cases List.find? (fun p => p.1 == k) m₁ <;> simp

theorem dictGet_eq_none {α : Type} {m : List (ChatKey × α)} {k : ChatKey} :
    dictGet m k = none ↔ ∀ p ∈ m, (p.1 == k) = false := by
  unfold dictGet
  simp [List.find?_eq_none]

theorem dictPop_of_absent {α : Type} {m : List (ChatKey × α)} {k : ChatKey}
    (h : dictGet m k = none) : dictPop m k = m := by
  unfold dictPop
  refine List.filter_eq_self.2 fun p hp => ?_
  simp [dictGet_eq_none.1 h p hp]

theorem dictGet_dictPop_self {α : Type} (m : List (ChatKey × α)) (k : ChatKey) :
    dictGet (dictPop m k) k = none := by
  rw [dictGet_eq_none]
  intro p hp
  have := (List.mem_filter.1 hp).2
  simpa using this

theorem dictPop_cons_self {α : Type} {k' kp : ChatKey} {v : α}
    {t : List (ChatKey × α)} (h : (k' == kp) = true) :
    dictPop ((k', v) :: t) kp = dictPop t kp := by
  simp [dictPop, List.filter_cons, h]

theorem dictPop_cons_ne {α : Type} {k' kp : ChatKey} {v : α}
    {t : List (ChatKey × α)} (h : (k' == kp) = false) :
    dictPop ((k', v) :: t) kp = (k', v) :: dictPop t kp := by
  simp [dictPop, List.filter_cons, h]

theorem dictGet_dictPop_ne {α : Type} (m : List (ChatKey × α)) {kp k : ChatKey}
    (h : ¬(k = kp)) : dictGet (dictPop m kp) k = dictGet m k := by
  induction m with
  | nil => rfl
  | cons a t ih =>
    obtain ⟨k', v'⟩ := a
    by_cases hp : k' = kp
    · have h2 : (k' == k) = false :=
        beq_eq_false_iff_ne.2 fun hh => h (by rw [← hh, hp])
      rw [dictPop_cons_self (by simpa using hp), ih, dictGet_cons_ne h2]
    · rw [dictPop_cons_ne (by simpa using hp)]
      by_cases hk : k' = k
      · rw [dictGet_cons_self (by simpa using hk),
          dictGet_cons_self (by simpa using hk)]
      · rw [dictGet_cons_ne (by simpa using hk),
          dictGet_cons_ne (by simpa using hk), ih]

theorem dictGet_dictSet_self {α : Type} (m : List (ChatKey × α)) (k : ChatKey)
    (v : α) : dictGet (dictSet m k v) k = some v := by
  induction m with
  | nil => exact dictGet_cons_self (by simp)
  | cons a t ih =>
    obtain ⟨k', v'⟩ := a
    by_cases hk : k' = k
    · have hb : (k' == k) = true := by simpa using hk
      simp only [dictSet, hb, if_true]
      exact dictGet_cons_self hb
    · have hb : (k' == k) = false := by simpa using hk
      simp only [dictSet, hb, Bool.false_eq_true, if_false]
      rw [dictGet_cons_ne hb, ih]

theorem dictGet_dictSet_ne {α : Type} (m : List (ChatKey × α)) (k : ChatKey)
    (v : α) {k' : ChatKey} (h : ¬(k' = k)) :
    dictGet (dictSet m k v) k' = dictGet m k' := by
  induction m with
  | nil =>
    show dictGet [(k, v)] k' = none
    exact dictGet_cons_ne (beq_eq_false_iff_ne.2 fun hh => h hh.symm)
  | cons a t ih =>
    obtain ⟨k₀, v₀⟩ := a
    by_cases hk : k₀ = k
    · have hb : (k₀ == k) = true := by simpa using hk
      have hb' : (k₀ == k') = false :=
        beq_eq_false_iff_ne.2 fun hh => h (by rw [← hh, hk])
      simp only [dictSet, hb, if_true]
      rw [dictGet_cons_ne hb', dictGet_cons_ne hb']
    · have hb : (k₀ == k) = false := by simpa using hk
      simp only [dictSet, hb, Bool.false_eq_true, if_false]
      by_cases hk' : k₀ = k'
      · have hb' : (k₀ == k') = true := by simpa using hk'
        rw [dictGet_cons_self hb', dictGet_cons_self hb']
      · have hb' : (k₀ == k') = false := by simpa using hk'
        rw [dictGet_cons_ne hb', dictGet_cons_ne hb', ih]

/-- Appending a fresh key at the end and moving it to the end is the
identity. -/
theorem moveToEnd_append_fresh {α : Type} (m : List (ChatKey × α)) (k : ChatKey)
    (v : α) (h : dictGet m k = none) :
    moveToEnd (m ++ [(k, v)]) k = m ++ [(k, v)] := by
  unfold moveToEnd
  rw [dictGet_append, h, Option.none_or, dictGet_cons_self (by simp)]
  unfold dictPop
  rw [List.filter_append]
  have h1 : m.filter (fun p => !(p.1 == k)) = m :=
    List.filter_eq_self.2 fun p hp => by simp [dictGet_eq_none.1 h p hp]
  have h2 : [(k, v)].filter (fun p : ChatKey × α => !(p.1 == k)) = [] := by simp
  rw [h1, h2, List.append_nil]

/-! ## Behaviour of `connect` -/

theorem createStateIfAbsent_absent_full (cfg : Config) (k0 : ChatKey)
    (v0 : ChatState) (rest : List (ChatKey × ChatState))
    (lastAct : List (ChatKey × Nat)) (key : ChatKey) (ns : ChatState)
    (hnew : dictGet ((k0, v0) :: rest) key = none)
    (hfull : cfg.max_chat_states ≤ ((k0, v0) :: rest).length) :
    createStateIfAbsent cfg ((k0, v0) :: rest) lastAct key ns
      = (rest ++ [(key, ns)], dictPop lastAct k0) := by
  simp only [List.length_cons] at hfull
  simp [createStateIfAbsent, hnew, hfull]

theorem createStateIfAbsent_absent_room (cfg : Config)
    (states : List (ChatKey × ChatState)) (lastAct : List (ChatKey × Nat))
    (key : ChatKey) (ns : ChatState)
    (hnew : dictGet states key = none)
    (hroom : states.length < cfg.max_chat_states) :
    createStateIfAbsent cfg states lastAct key ns
      = (states ++ [(key, ns)], lastAct) := by
  simp [createStateIfAbsent, hnew]
  omega

/-- Both branches of the connection-cap check leave the same chat
state store. -/
theorem connect_chat_states_eq (cfg : Config) (s : ManagerState) (ws : Nat)
    (project_id chat_id : String) (now : Nat) (fresh : Nat → String) :
    (connect cfg s ws project_id chat_id now fresh).1.chat_states
      = moveToEnd (createStateIfAbsent cfg s.chat_states s.last_activity
          (chat_key project_id chat_id)
          { chat_id := chat_id, last_accessed := now }).1
          (chat_key project_id chat_id) := by
  by_cases hc : cfg.max_connections_per_chat ≤
      ((dictGet s.connections (chat_key project_id chat_id)).getD []).length
  · simp [connect, hc]
  · simp [connect, hc]

theorem connect_chat_states_full (cfg : Config) (s : ManagerState) (ws : Nat)
    (project_id chat_id : String) (now : Nat) (fresh : Nat → String)
    (k0 : ChatKey) (v0 : ChatState) (rest : List (ChatKey × ChatState))
    (hse : s.chat_states = (k0, v0) :: rest)
    (hnew : dictGet s.chat_states (chat_key project_id chat_id) = none)
    (hfull : cfg.max_chat_states ≤ s.chat_states.length) :
    (connect cfg s ws project_id chat_id now fresh).1.chat_states
      = rest ++ [(chat_key project_id chat_id,
          { chat_id := chat_id, last_accessed := now })] := by
  have hrest : dictGet rest (chat_key project_id chat_id) = none := by
    rw [dictGet_eq_none]
    intro p hp
    exact dictGet_eq_none.1 (hse ▸ hnew) p (by simp [hp])
  rw [connect_chat_states_eq, hse,
    createStateIfAbsent_absent_full cfg k0 v0 rest _ _ _ (hse ▸ hnew)
      (by simpa [hse] using hfull)]
  exact moveToEnd_append_fresh rest _ _ hrest

theorem connect_chat_states_room (cfg : Config) (s : ManagerState) (ws : Nat)
    (project_id chat_id : String) (now : Nat) (fresh : Nat → String)
    (hnew : dictGet s.chat_states (chat_key project_id chat_id) = none)
    (hroom : s.chat_states.length < cfg.max_chat_states) :
    (connect cfg s ws project_id chat_id now fresh).1.chat_states
      = s.chat_states ++ [(chat_key project_id chat_id,
          { chat_id := chat_id, last_accessed := now })] := by
  rw [connect_chat_states_eq,
    createStateIfAbsent_absent_room cfg _ _ _ _ hnew hroom]
  exact moveToEnd_append_fresh _ _ _ hnew

/-! ## Claim C5: per-key connection cap -/

/-- C5: a connection attempt on a key already holding the configured
cap of connections is closed with the policy-violation status code
1008 before entering the Active state — the only emitted effects are
the transport accept and the close, so no handshake or history frame
reaches it and it is never added to the registry — and the connection
registry (in particular the existing connections on that key) is left
entirely unchanged. -/
theorem C5_cap_reject (cfg : Config) (s : ManagerState) (ws : Nat)
    (project_id chat_id : String) (now : Nat) (fresh : Nat → String)
    (hcap : cfg.max_connections_per_chat ≤
      ((dictGet s.connections (chat_key project_id chat_id)).getD []).length) :
    (connect cfg s ws project_id chat_id now fresh).2
      = [WsEvent.accepted ws, WsEvent.closed ws 1008] ∧
    (connect cfg s ws project_id chat_id now fresh).1.connections
      = s.connections := by
  constructor <;> simp [connect, hcap]

/-- A constant `uuid4()` supply for concrete scenarios. -/
def noFresh : Nat → String := fun _ => "uuid"

/-- A prompt handler that is never consulted in the concrete
scenarios that use it. -/
def noPrompt : String → Option String → List HistoryEntry →
    Except String AgentResponse := fun _ _ _ => .error "unused"

/-- A configuration with a per-key connection cap of 1. -/
def c5Cfg : Config := { max_connections_per_chat := 1 }

/-- One connection already registered on `("p", "a")`. -/
def c5State : ManagerState := (connect c5Cfg {} 1 "p" "a" 0 noFresh).1

/-- Witness for C5: a second connection on a key whose cap of 1 is
already reached. -/
theorem C5_cap_reject_witness :
    c5Cfg.max_connections_per_chat ≤
      ((dictGet c5State.connections (chat_key "p" "a")).getD []).length ∧
    ((connect c5Cfg c5State 2 "p" "a" 5 noFresh).2
        = [WsEvent.accepted 2, WsEvent.closed 2 1008] ∧
      (connect c5Cfg c5State 2 "p" "a" 5 noFresh).1.connections
        = c5State.connections) := by
  have hcap : c5Cfg.max_connections_per_chat ≤
      ((dictGet c5State.connections (chat_key "p" "a")).getD []).length := by
    decide
  exact ⟨hcap, C5_cap_reject c5Cfg c5State 2 "p" "a" 5 noFresh hcap⟩

/-! ## Claim C10: a rejected connection still mutates shared state -/

/-- C10: a connection attempt rejected for exceeding the per-chat cap
still mutates shared state before the rejection: the transport is
accepted (and nothing but the accept and the 1008 close is emitted —
no handshake or history frames), a fresh chat state is created for the
previously-unseen key, the key ends in most-recently-used (last)
position, and when the store was at its ceiling the oldest (front)
resident entry is evicted, otherwise all resident entries survive. -/
theorem C10_reject_mutates (cfg : Config) (s : ManagerState) (ws : Nat)
    (project_id chat_id : String) (now : Nat) (fresh : Nat → String)
    (hnew : dictGet s.chat_states (chat_key project_id chat_id) = none)
    (hcap : cfg.max_connections_per_chat ≤
      ((dictGet s.connections (chat_key project_id chat_id)).getD []).length)
    (hpos : 1 ≤ cfg.max_chat_states) :
    (connect cfg s ws project_id chat_id now fresh).2
      = [WsEvent.accepted ws, WsEvent.closed ws 1008] ∧
    dictGet (connect cfg s ws project_id chat_id now fresh).1.chat_states
        (chat_key project_id chat_id)
      = some { chat_id := chat_id, last_accessed := now } ∧
    ((connect cfg s ws project_id chat_id now fresh).1.chat_states.map
        Prod.fst).getLast? = some (chat_key project_id chat_id) ∧
    (cfg.max_chat_states ≤ s.chat_states.length →
      (connect cfg s ws project_id chat_id now fresh).1.chat_states.map Prod.fst
        = (s.chat_states.map Prod.fst).drop 1 ++ [chat_key project_id chat_id]) ∧
    (s.chat_states.length < cfg.max_chat_states →
      (connect cfg s ws project_id chat_id now fresh).1.chat_states.map Prod.fst
        = s.chat_states.map Prod.fst ++ [chat_key project_id chat_id]) := by
  refine ⟨by simp [connect, hcap], ?_⟩
  by_cases hfull : cfg.max_chat_states ≤ s.chat_states.length
  · rcases hse : s.chat_states with _ | ⟨⟨k0, v0⟩, rest⟩
    · rw [hse] at hfull
      simp at hfull
      omega
    · have hcs := connect_chat_states_full cfg s ws project_id chat_id now fresh
        k0 v0 rest hse hnew hfull
      rw [hcs]
      have hrest : dictGet rest (chat_key project_id chat_id) = none := by
        rw [dictGet_eq_none]
        intro p hp
        exact dictGet_eq_none.1 (hse ▸ hnew) p (by simp [hp])
      refine ⟨?_, ?_, ?_, ?_⟩
      · rw [dictGet_append, hrest, Option.none_or, dictGet_cons_self (by simp)]
      · simp
      · intro _
        simp [hse]
      · intro hlt
        rw [hse] at hfull
        omega
  · have hcs := connect_chat_states_room cfg s ws project_id chat_id now fresh
      hnew (by omega)
    rw [hcs]
    refine ⟨?_, ?_, ?_, ?_⟩
    · rw [dictGet_append, hnew, Option.none_or, dictGet_cons_self (by simp)]
    · simp
    · intro hge
      omega
    · intro _
      simp

/-- A configuration that rejects every connection (cap 0). -/
def c10Cfg : Config := { max_connections_per_chat := 0 }

/-- Witness for C10: connecting to an empty manager under cap 0 is
rejected, yet a chat state for the new key is created and sits in
most-recently-used position. -/
theorem C10_reject_mutates_witness :
    dictGet (ManagerState.mk [] [] []).chat_states (chat_key "p" "a") = none ∧
    c10Cfg.max_connections_per_chat ≤
      ((dictGet (ManagerState.mk [] [] []).connections (chat_key "p" "a")).getD
        []).length ∧
    1 ≤ c10Cfg.max_chat_states ∧
    ((connect c10Cfg (ManagerState.mk [] [] []) 7 "p" "a" 3 noFresh).2
        = [WsEvent.accepted 7, WsEvent.closed 7 1008] ∧
      dictGet (connect c10Cfg (ManagerState.mk [] [] []) 7 "p" "a" 3
          noFresh).1.chat_states (chat_key "p" "a")
        = some { chat_id := "a", last_accessed := 3 } ∧
      ((connect c10Cfg (ManagerState.mk [] [] []) 7 "p" "a" 3
          noFresh).1.chat_states.map Prod.fst).getLast?
        = some (chat_key "p" "a") ∧
      (c10Cfg.max_chat_states ≤ (ManagerState.mk [] [] []).chat_states.length →
        (connect c10Cfg (ManagerState.mk [] [] []) 7 "p" "a" 3
            noFresh).1.chat_states.map Prod.fst
          = ((ManagerState.mk [] [] []).chat_states.map Prod.fst).drop 1
              ++ [chat_key "p" "a"]) ∧
      ((ManagerState.mk [] [] []).chat_states.length < c10Cfg.max_chat_states →
        (connect c10Cfg (ManagerState.mk [] [] []) 7 "p" "a" 3
            noFresh).1.chat_states.map Prod.fst
          = (ManagerState.mk [] [] []).chat_states.map Prod.fst
              ++ [chat_key "p" "a"])) :=
  ⟨rfl, by decide, by decide,
    C10_reject_mutates c10Cfg (ManagerState.mk [] [] []) 7 "p" "a" 3 noFresh
      rfl (by decide) (by decide)⟩

/-! ## Claim C2: capacity eviction policy -/

theorem dictGet_isSome_of_mem {α : Type} {m : List (ChatKey × α)} {k : ChatKey}
    (h : k ∈ m.map Prod.fst) : (dictGet m k).isSome = true := by
  unfold dictGet
  obtain ⟨p, hp, he⟩ := List.mem_map.1 h
  have hfind : (List.find? (fun q => q.1 == k) m).isSome :=
    List.find?_isSome.2 ⟨p, hp, by simp [he]⟩
  cases hf : List.find? (fun q => q.1 == k) m with
  | none => rw [hf] at hfind; simp at hfind
  | some q => simp

theorem createStateIfAbsent_fst_irrel (cfg : Config)
    (states : List (ChatKey × ChatState)) (lastAct lastAct' : List (ChatKey × Nat))
    (key : ChatKey) (ns : ChatState) :
    (createStateIfAbsent cfg states lastAct key ns).1
      = (createStateIfAbsent cfg states lastAct' key ns).1 := by
  unfold createStateIfAbsent
  by_cases h1 : (dictGet states key).isNone = true
  · by_cases h2 : states.length ≥ cfg.max_chat_states
    · cases states with
      | nil => simp [h1, h2]
      | cons a t =>
        obtain ⟨k0, v0⟩ := a
        simp only [List.length_cons] at h2
        simp [h1, h2]
    · simp [h1, h2]
  · simp [h1]

/-- C2 (amended): when the store is at its ceiling and `connect`
inserts a previously-unseen key, the evicted victim is unconditionally
the entry at the front of the ordered store — the least-recently
*connected* key (only `connect` refreshes the order; message traffic
does not) — independent of every `last_accessed` timestamp: the victim
is not compared against the idle timeout, every other resident entry
survives, and the same victim is chosen whatever the activity map
holds. -/
theorem C2_evicts_front (cfg : Config) (s : ManagerState) (ws : Nat)
    (project_id chat_id : String) (now : Nat) (fresh : Nat → String)
    (k0 : ChatKey) (v0 : ChatState) (rest : List (ChatKey × ChatState))
    (hse : s.chat_states = (k0, v0) :: rest)
    (hnd : (s.chat_states.map Prod.fst).Nodup)
    (hnew : dictGet s.chat_states (chat_key project_id chat_id) = none)
    (hfull : cfg.max_chat_states ≤ s.chat_states.length) :
    (connect cfg s ws project_id chat_id now fresh).1.chat_states
      = rest ++ [(chat_key project_id chat_id,
          { chat_id := chat_id, last_accessed := now })] ∧
    dictGet (connect cfg s ws project_id chat_id now fresh).1.chat_states k0
      = none ∧
    (∀ k ∈ rest.map Prod.fst,
      (dictGet (connect cfg s ws project_id chat_id now fresh).1.chat_states
        k).isSome = true) ∧
    (∀ la' : List (ChatKey × Nat),
      (connect cfg { s with last_activity := la' } ws project_id chat_id now
        fresh).1.chat_states
        = (connect cfg s ws project_id chat_id now fresh).1.chat_states) := by
  have hcs := connect_chat_states_full cfg s ws project_id chat_id now fresh
    k0 v0 rest hse hnew hfull
  have hkey0 : (chat_key project_id chat_id == k0) = false := by
    refine beq_eq_false_iff_ne.2 fun hh => ?_
    have : dictGet s.chat_states (chat_key project_id chat_id) = some v0 := by
      rw [hse, hh]
      exact dictGet_cons_self (by simp)
    rw [hnew] at this
    exact Option.noConfusion this
  have hk0rest : dictGet rest k0 = none := by
    rw [dictGet_eq_none]
    intro p hp
    refine beq_eq_false_iff_ne.2 fun hh => ?_
    have hnd' := hse ▸ hnd
    simp only [List.map_cons, List.nodup_cons] at hnd'
    exact hnd'.1 (hh ▸ List.mem_map_of_mem Prod.fst hp)
  refine ⟨hcs, ?_, ?_, ?_⟩
  · rw [hcs, dictGet_append, hk0rest, Option.none_or, dictGet_cons_ne hkey0]
    rfl
  · intro k hk
    rw [hcs, dictGet_append]
    have h1 := dictGet_isSome_of_mem (m := rest) hk
    cases hr : dictGet rest k with
    | none => rw [hr] at h1; simp at h1
    | some v => simp
  · intro la'
    rw [connect_chat_states_eq, connect_chat_states_eq]
    have : ({ s with last_activity := la' } : ManagerState).chat_states
        = s.chat_states := rfl
    rw [this]
    rw [createStateIfAbsent_fst_irrel cfg s.chat_states la' s.last_activity]

/-- A configuration with a chat-state ceiling of 2. -/
def c2Cfg : Config := { max_chat_states := 2 }

/-- A heartbeat frame as a client would send it. -/
def heartbeatFrame : ProtocolMessage :=
  ProtocolMessage.create .HEARTBEAT { heartbeat := some ⟨⟩ } "client" "server" "hb"

/-- The state just before the over-capacity insertion: `("p","a")`
connected at time 0 and messaged at time 10000, `("p","b")` connected
at time 10 and idle since. -/
def c2PreState : ManagerState :=
  let s1 := (connect c2Cfg (ManagerState.mk [] [] []) 1 "p" "a" 0 noFresh).1
  let s2 := (connect c2Cfg s1 2 "p" "b" 10 noFresh).1
  (handle_message c2Cfg s2 1 heartbeatFrame "p" "a" 10000 noFresh noPrompt).1

/-- The state after connecting the fresh key `("p","c")` at time
10010, which forces an eviction. -/
def c2PostState : ManagerState :=
  (connect c2Cfg c2PreState 3 "p" "c" 10010 noFresh).1

/-- C2 counterexample: at the insertion time 10010 the key `p:a` was
touched 10 seconds ago (well within the one-hour idle timeout) and
`p:b` has been idle for 10000 seconds (expired), yet the insertion of
`p:c` evicts the actively-touched `p:a` — the front of the
connect-ordered store — while the idle `p:b` survives; the eviction is
neither least-recently-touched nor does it skip entries within the
idle timeout. -/
theorem C2_cex :
    dictGet c2PreState.last_activity "p:a" = some 10000 ∧
    dictGet c2PreState.last_activity "p:b" = some 10 ∧
    10010 - 10000 ≤ c2Cfg.inactivity_timeout ∧
    c2Cfg.inactivity_timeout < 10010 - 10 ∧
    c2PreState.chat_states.length = c2Cfg.max_chat_states ∧
    dictGet c2PreState.chat_states "p:c" = none ∧
    dictGet c2PostState.chat_states "p:a" = none ∧
    (dictGet c2PostState.chat_states "p:b").isSome = true := by
  refine ⟨rfl, rfl, by decide, by decide, rfl, rfl, rfl, rfl⟩

/-- Witness for the amended C2 at the same concrete scenario. -/
theorem C2_evicts_front_witness :
    (c2PreState.chat_states
        = ("p:a", ChatState.mk "a" none [] 0)
            :: [("p:b", ChatState.mk "b" none [] 10)] ∧
      (c2PreState.chat_states.map Prod.fst).Nodup ∧
      dictGet c2PreState.chat_states (chat_key "p" "c") = none ∧
      c2Cfg.max_chat_states ≤ c2PreState.chat_states.length) ∧
    (connect c2Cfg c2PreState 3 "p" "c" 10010 noFresh).1.chat_states
      = [("p:b", ChatState.mk "b" none [] 10)]
          ++ [(chat_key "p" "c", { chat_id := "c", last_accessed := 10010 })] ∧
    dictGet (connect c2Cfg c2PreState 3 "p" "c" 10010 noFresh).1.chat_states
        "p:a" = none ∧
    ∀ k ∈ ([("p:b", ChatState.mk "b" none [] 10)].map Prod.fst),
      (dictGet (connect c2Cfg c2PreState 3 "p" "c" 10010 noFresh).1.chat_states
        k).isSome = true := by
  have hinst := C2_evicts_front c2Cfg c2PreState 3 "p" "c" 10010 noFresh
    "p:a" (ChatState.mk "a" none [] 0) [("p:b", ChatState.mk "b" none [] 10)]
    rfl (by decide) rfl (by decide)
  exact ⟨⟨rfl, by decide, rfl, by decide⟩, hinst.1, hinst.2.1, hinst.2.2.1⟩

/-! ## Claim C9: chat-key derivation -/

theorem append_sep_inj {l₁ l₂ r₁ r₂ : List Char} (sep : Char)
    (h₁ : sep ∉ l₁) (h₂ : sep ∉ l₂)
    (heq : l₁ ++ sep :: r₁ = l₂ ++ sep :: r₂) : l₁ = l₂ ∧ r₁ = r₂ := by
  induction l₁ generalizing l₂ with
  | nil =>
    cases l₂ with
    | nil => simpa using heq
    | cons c t =>
      simp only [List.nil_append, List.cons_append, List.cons.injEq] at heq
      exact absurd (heq.1 ▸ List.mem_cons_self c t) h₂
  | cons c t ih =>
    cases l₂ with
    | nil =>
      simp only [List.nil_append, List.cons_append, List.cons.injEq] at heq
      exact absurd (heq.1.symm ▸ List.mem_cons_self c t) h₁
    | cons c₂ t₂ =>
      simp only [List.cons_append, List.cons.injEq] at heq
      obtain ⟨hc, ht⟩ := heq
      have hrec := ih (fun hm => h₁ (List.mem_cons_of_mem c hm))
        (fun hm => h₂ (List.mem_cons_of_mem c₂ hm)) ht
      exact ⟨by rw [hc, hrec.1], hrec.2⟩

/-- C9 (amended): two distinct `(project_id, chat_id)` pairs derive
distinct chat keys provided neither `project_id` contains the `':'`
separator; a colon inside `project_id` can make distinct pairs collide
on one key (and hence share one conversational context), as the
counterexample shows. -/
theorem C9_chat_key_inj (p₁ c₁ p₂ c₂ : String)
    (h₁ : ':' ∉ p₁.data) (h₂ : ':' ∉ p₂.data)
    (hne : (p₁, c₁) ≠ (p₂, c₂)) :
    chat_key p₁ c₁ ≠ chat_key p₂ c₂ := by
  intro he
  apply hne
  have hd := congrArg String.data he
  have hcolon : (":" : String).data = [':'] := rfl
  rw [chat_key, chat_key, String.data_append, String.data_append,
    String.data_append, String.data_append, hcolon] at hd
  simp only [List.append_assoc, List.singleton_append] at hd
  obtain ⟨hp, hc⟩ := append_sep_inj ':' h₁ h₂ hd
  have hps : p₁ = p₂ := by
    cases p₁
    cases p₂
    exact congrArg String.mk (by simpa using hp)
  have hcs : c₁ = c₂ := by
    cases c₁
    cases c₂
    exact congrArg String.mk (by simpa using hc)
  rw [hps, hcs]

/-- Witness for C9 on two colon-free distinct pairs. -/
theorem C9_chat_key_inj_witness :
    ((':' ∉ ("p1" : String).data) ∧ (':' ∉ ("p2" : String).data) ∧
      (("p1", "c1") ≠ (("p2", "c2") : String × String))) ∧
    chat_key "p1" "c1" ≠ chat_key "p2" "c2" :=
  ⟨⟨by decide, by decide, by decide⟩,
    C9_chat_key_inj "p1" "c1" "p2" "c2" (by decide) (by decide) (by decide)⟩

/-- C9 counterexample: the distinct pairs `("a:b", "c")` and
`("a", "b:c")` derive the same chat key `"a:b:c"`, so they share one
conversational context. -/
theorem C9_cex :
    chat_key "a:b" "c" = chat_key "a" "b:c" ∧
      (("a:b", "c") ≠ (("a", "b:c") : String × String)) := by
  exact ⟨rfl, by decide⟩

/-! ## Behaviour of `handle_message` -/

theorem get_payload_type_ne_heartbeat (p : ProtocolPayload)
    (h : p.heartbeat = none) :
    (p.get_payload_type == "heartbeat") = false := by
  unfold ProtocolPayload.get_payload_type
  rw [h]
  simp only [Option.isSome_none, Bool.false_eq_true, if_false]
  split_ifs <;> rfl

theorem broadcastEvents_eq (s : ManagerState) (key : ChatKey)
    (message : ProtocolMessage) (exclude : List Nat) :
    broadcastEvents s key message exclude
      = (((dictGet s.connections key).getD []).filter
          (fun c => !(exclude.contains c.websocket))).map
        (fun c => WsEvent.sent c.websocket message) := by
  unfold broadcastEvents
  cases dictGet s.connections key <;> simp

/-- The dispatch of `handle_message` on a Message-kind frame with a
user-role message payload and no heartbeat payload, for a key whose
chat state is resident: the prompt handler is invoked with the frame
content, the state's data-source override and its history; a failure
is sent to the sender and broadcast to the rest of the room, a success
is appended twice to the history and broadcast to the whole room. -/
theorem handle_message_user_eq (cfg : Config) (s : ManagerState) (ws : Nat)
    (msg : ProtocolMessage) (project_id chat_id : String) (now : Nat)
    (fresh : Nat → String)
    (prompt : String → Option String → List HistoryEntry →
      Except String AgentResponse)
    (mc : MessageContent) (cs : ChatState)
    (hkind : msg.kind = .MESSAGE)
    (hhb : msg.payload.heartbeat = none)
    (hmsg : msg.payload.message = some mc)
    (hrole : mc.role = .USER)
    (hstate : dictGet s.chat_states (chat_key project_id chat_id) = some cs) :
    handle_message cfg s ws msg project_id chat_id now fresh prompt
      = (let key := chat_key project_id chat_id
         let s1 : ManagerState :=
           { s with last_activity := dictSet s.last_activity key now }
         match prompt mc.content cs.database_url cs.history with
         | .error exc =>
           let error_payload := create_error_message "agent_error" exc none
             "server" "client" (fresh 0) (fresh 1)
           (s1, WsEvent.prompted mc.content cs.database_url cs.history
             :: WsEvent.sent ws error_payload
             :: broadcastEvents s1 key error_payload [ws])
         | .ok response =>
           let contentOut := formatAgentReply response
           let st2 := (cs.add_to_history cfg.max_chat_history_length
               "user" mc.content now).add_to_history
               cfg.max_chat_history_length "assistant" contentOut now
           let s2 : ManagerState :=
             { s1 with chat_states := dictSet s1.chat_states key st2 }
           (s2, WsEvent.prompted mc.content cs.database_url cs.history
             :: broadcastEvents s2 key (create_text_message .ASSISTANT
                 contentOut "server" "client" (fresh 0)) [])) := by
  have hc2 := get_payload_type_ne_heartbeat msg.payload hhb
  simp only [handle_message, hkind, hstate, hmsg, hrole, hc2]
  simp [hstate]

/-! ## Claim C6: prompt-handler failure reporting -/

/-- C6: when the prompt handler fails for a user message, the sender
receives an Error-kind frame with code `agent_error` carrying the
failure description, the identical error frame is broadcast to every
other connection on the chat key (the sender excluded), and both the
chat state store (history and data-source override) and the connection
registry are left unchanged. -/
theorem C6_agent_error (cfg : Config) (s : ManagerState) (ws : Nat)
    (msg : ProtocolMessage) (project_id chat_id : String) (now : Nat)
    (fresh : Nat → String)
    (prompt : String → Option String → List HistoryEntry →
      Except String AgentResponse)
    (mc : MessageContent) (cs : ChatState) (exc : String)
    (hkind : msg.kind = .MESSAGE)
    (hhb : msg.payload.heartbeat = none)
    (hmsg : msg.payload.message = some mc)
    (hrole : mc.role = .USER)
    (hstate : dictGet s.chat_states (chat_key project_id chat_id) = some cs)
    (hfail : prompt mc.content cs.database_url cs.history = .error exc) :
    (handle_message cfg s ws msg project_id chat_id now fresh prompt).2
      = WsEvent.prompted mc.content cs.database_url cs.history
        :: WsEvent.sent ws (create_error_message "agent_error" exc none
            "server" "client" (fresh 0) (fresh 1))
        :: (((dictGet s.connections (chat_key project_id chat_id)).getD
              []).filter (fun c => c.websocket != ws)).map
            (fun c => WsEvent.sent c.websocket (create_error_message
              "agent_error" exc none "server" "client" (fresh 0) (fresh 1))) ∧
    (handle_message cfg s ws msg project_id chat_id now fresh prompt).1.chat_states
      = s.chat_states ∧
    (handle_message cfg s ws msg project_id chat_id now fresh prompt).1.connections
      = s.connections := by
  rw [handle_message_user_eq cfg s ws msg project_id chat_id now fresh prompt
    mc cs hkind hhb hmsg hrole hstate]
  simp only [hfail]
  have hfilter : (fun c : ChatConnection => !([ws].contains c.websocket))
      = (fun c : ChatConnection => c.websocket != ws) := by
    funext c
    by_cases h : c.websocket = ws <;> simp [h, List.contains, bne]
  refine ⟨?_, by simp, by simp⟩
  rw [broadcastEvents_eq]
  simp only [hfilter]

/-- Two connections (websockets 1 and 2) on key `("p","a")` under the
default configuration. -/
def c6State : ManagerState :=
  let s1 := (connect (Config.mk 10 100 10000 3600) (ManagerState.mk [] [] [])
    1 "p" "a" 0 noFresh).1
  (connect (Config.mk 10 100 10000 3600) s1 2 "p" "a" 1 noFresh).1

/-- A prompt handler that always fails with description `boom`. -/
def failPrompt : String → Option String → List HistoryEntry →
    Except String AgentResponse := fun _ _ _ => .error "boom"

/-- The user-message frame sent by websocket 1 in the C6 scenario. -/
def c6Frame : ProtocolMessage :=
  create_text_message .USER "list my tables" "client" "server" "m1"

/-- Witness for C6: websocket 1 sends a user message, the handler
raises, websocket 1 receives the `agent_error` frame and websocket 2
receives the same broadcast. -/
theorem C6_agent_error_witness :
    (c6Frame.kind = .MESSAGE ∧
      c6Frame.payload.heartbeat = none ∧
      c6Frame.payload.message
        = some (MessageContent.mk .USER "text" "list my tables" none) ∧
      dictGet c6State.chat_states (chat_key "p" "a")
        = some (ChatState.mk "a" none [] 0) ∧
      failPrompt "list my tables" none [] = .error "boom") ∧
    ((handle_message (Config.mk 10 100 10000 3600) c6State 1 c6Frame "p" "a" 7
        noFresh failPrompt).2
      = WsEvent.prompted "list my tables" none []
        :: WsEvent.sent 1 (create_error_message "agent_error" "boom" none
            "server" "client" (noFresh 0) (noFresh 1))
        :: (((dictGet c6State.connections (chat_key "p" "a")).getD
              []).filter (fun c => c.websocket != 1)).map
            (fun c => WsEvent.sent c.websocket (create_error_message
              "agent_error" "boom" none "server" "client" (noFresh 0)
              (noFresh 1))) ∧
      (handle_message (Config.mk 10 100 10000 3600) c6State 1 c6Frame "p" "a" 7
          noFresh failPrompt).1.chat_states = c6State.chat_states ∧
      (handle_message (Config.mk 10 100 10000 3600) c6State 1 c6Frame "p" "a" 7
          noFresh failPrompt).1.connections = c6State.connections) :=
  ⟨⟨rfl, rfl, rfl, rfl, rfl⟩,
    C6_agent_error (Config.mk 10 100 10000 3600) c6State 1 c6Frame "p" "a" 7
      noFresh failPrompt (MessageContent.mk .USER "text" "list my tables" none)
      (ChatState.mk "a" none [] 0) "boom" rfl rfl rfl rfl rfl rfl⟩

/-! ## Claim C8: prompt-handler invocation condition -/

/-- C8 (amended): for a Message-kind inbound frame without a heartbeat
payload variant, on a key with a resident chat state, the external
prompt handler is invoked exactly when the payload message has user
role — regardless of whether the content is empty — receiving
`(content, active_data_source, history)` (the invocation is the first
recorded effect); for a non-user role nothing is sent, no handler is
invoked, and the chat states and connection registry are unchanged
(only the per-key activity clock is refreshed, as for every inbound
frame). -/
theorem C8_user_dispatch (cfg : Config) (s : ManagerState) (ws : Nat)
    (msg : ProtocolMessage) (project_id chat_id : String) (now : Nat)
    (fresh : Nat → String)
    (prompt : String → Option String → List HistoryEntry →
      Except String AgentResponse)
    (mc : MessageContent) (cs : ChatState)
    (hkind : msg.kind = .MESSAGE)
    (hhb : msg.payload.heartbeat = none)
    (hmsg : msg.payload.message = some mc)
    (hstate : dictGet s.chat_states (chat_key project_id chat_id) = some cs) :
    (mc.role = .USER →
      (handle_message cfg s ws msg project_id chat_id now fresh prompt).2.head?
        = some (WsEvent.prompted mc.content cs.database_url cs.history)) ∧
    (mc.role ≠ .USER →
      (handle_message cfg s ws msg project_id chat_id now fresh prompt).2 = [] ∧
      (handle_message cfg s ws msg project_id chat_id now fresh
          prompt).1.chat_states = s.chat_states ∧
      (handle_message cfg s ws msg project_id chat_id now fresh
          prompt).1.connections = s.connections) := by
  constructor
  · intro hrole
    rw [handle_message_user_eq cfg s ws msg project_id chat_id now fresh prompt
      mc cs hkind hhb hmsg hrole hstate]
    cases prompt mc.content cs.database_url cs.history <;> rfl
  · intro hrole
    have hc2 := get_payload_type_ne_heartbeat msg.payload hhb
    have hr : (mc.role != MessageRole.USER) = true := bne_iff_ne.2 hrole
    refine ⟨?_, ?_, ?_⟩ <;>
      simp [handle_message, hkind, hc2, hmsg, hr, hstate]

/-- The user-message frame with empty content. -/
def c8CexFrame : ProtocolMessage :=
  create_text_message .USER "" "client" "server" "m0"

/-- C8 counterexample: a Message-kind frame with user role and *empty*
content still invokes the prompt handler (the code has no
non-emptiness check), contradicting the claim that the handler is
invoked exactly for non-empty user content. -/
theorem C8_cex :
    (handle_message (Config.mk 10 100 10000 3600) c6State 1 c8CexFrame "p" "a"
        9 noFresh failPrompt).2.head?
      = some (WsEvent.prompted "" none []) := by
  rfl

/-- The non-empty user-message frame for the C8 witness. -/
def c8Frame : ProtocolMessage :=
  create_text_message .USER "hello" "client" "server" "m2"

/-- Witness for C8 on a concrete user-role frame. -/
theorem C8_user_dispatch_witness :
    (c8Frame.kind = .MESSAGE ∧
      c8Frame.payload.heartbeat = none ∧
      c8Frame.payload.message
        = some (MessageContent.mk .USER "text" "hello" none) ∧
      dictGet c6State.chat_states (chat_key "p" "a")
        = some (ChatState.mk "a" none [] 0)) ∧
    (((MessageContent.mk .USER "text" "hello" none).role = .USER →
      (handle_message (Config.mk 10 100 10000 3600) c6State 1 c8Frame "p" "a"
          11 noFresh failPrompt).2.head?
        = some (WsEvent.prompted "hello" none [])) ∧
    ((MessageContent.mk .USER "text" "hello" none).role ≠ .USER →
      (handle_message (Config.mk 10 100 10000 3600) c6State 1 c8Frame "p" "a"
          11 noFresh failPrompt).2 = [] ∧
      (handle_message (Config.mk 10 100 10000 3600) c6State 1 c8Frame "p" "a"
          11 noFresh failPrompt).1.chat_states = c6State.chat_states ∧
      (handle_message (Config.mk 10 100 10000 3600) c6State 1 c8Frame "p" "a"
          11 noFresh failPrompt).1.connections = c6State.connections)) :=
  ⟨⟨rfl, rfl, rfl, rfl⟩,
    C8_user_dispatch (Config.mk 10 100 10000 3600) c6State 1 c8Frame "p" "a"
      11 noFresh failPrompt (MessageContent.mk .USER "text" "hello" none)
      (ChatState.mk "a" none [] 0) rfl rfl rfl rfl⟩

/-! ## Claim C7: `Set` command handling -/

/-- The Command-kind frame of Scenario B: a `Set` command with a typed
argument. -/
def setCommandFrame (key : SetCommandArgumentType) (value mid : String) :
    ProtocolMessage :=
  ProtocolMessage.create .COMMAND
    { command := some ⟨.SET, .setArg ⟨key, value⟩⟩ } "client" "server" mid

/-- C7: a Command-kind `Set` frame with argument key `database` or
`database_url` rewrites the chat state's data-source override to the
given value and replies to the sender with a single system-role text
confirmation; a `Set` with key `role` or `model` is silently ignored
(no reply, chat states unchanged); and on any state whose resident
chat state carries override `v`, a subsequent user message invokes the
prompt handler with `v` as the data-source override. -/
theorem C7_set_command (cfg : Config) (s : ManagerState) (ws : Nat)
    (project_id chat_id : String) (now : Nat) (fresh : Nat → String)
    (prompt : String → Option String → List HistoryEntry →
      Except String AgentResponse)
    (v mid : String) (cs : ChatState)
    (hstate : dictGet s.chat_states (chat_key project_id chat_id) = some cs) :
    ((handle_message cfg s ws (setCommandFrame .DATABASE v mid) project_id
        chat_id now fresh prompt).1.chat_states
      = dictSet s.chat_states (chat_key project_id chat_id)
          { cs with database_url := some v } ∧
    (handle_message cfg s ws (setCommandFrame .DATABASE v mid) project_id
        chat_id now fresh prompt).2
      = [WsEvent.sent ws (create_text_message .SYSTEM
          ("Database context set to " ++ v) "server" "client" (fresh 0))]) ∧
    ((handle_message cfg s ws (setCommandFrame .DATABASE_URL v mid) project_id
        chat_id now fresh prompt).1.chat_states
      = dictSet s.chat_states (chat_key project_id chat_id)
          { cs with database_url := some v } ∧
    (handle_message cfg s ws (setCommandFrame .DATABASE_URL v mid) project_id
        chat_id now fresh prompt).2
      = [WsEvent.sent ws (create_text_message .SYSTEM
          "Database URL updated." "server" "client" (fresh 0))]) ∧
    ((handle_message cfg s ws (setCommandFrame .ROLE v mid) project_id
        chat_id now fresh prompt).1.chat_states = s.chat_states ∧
    (handle_message cfg s ws (setCommandFrame .ROLE v mid) project_id
        chat_id now fresh prompt).2 = []) ∧
    ((handle_message cfg s ws (setCommandFrame .MODEL v mid) project_id
        chat_id now fresh prompt).1.chat_states = s.chat_states ∧
    (handle_message cfg s ws (setCommandFrame .MODEL v mid) project_id
        chat_id now fresh prompt).2 = []) ∧
    (∀ (s' : ManagerState) (cs' : ChatState) (ws' : Nat)
        (content mid' : String) (now' : Nat) (fresh' : Nat → String)
        (prompt' : String → Option String → List HistoryEntry →
          Except String AgentResponse),
      dictGet s'.chat_states (chat_key project_id chat_id) = some cs' →
      cs'.database_url = some v →
      (handle_message cfg s' ws' (create_text_message .USER content "client"
          "server" mid') project_id chat_id now' fresh' prompt').2.head?
        = some (WsEvent.prompted content (some v) cs'.history)) := by
  refine ⟨⟨?_, ?_⟩, ⟨?_, ?_⟩, ⟨?_, ?_⟩, ⟨?_, ?_⟩, ?_⟩
  case refine_9 =>
    intro s' cs' ws' content mid' now' fresh' prompt' hstate' hdb
    rw [handle_message_user_eq cfg s' ws' _ project_id chat_id now' fresh'
      prompt' (MessageContent.mk .USER "text" content none) cs' rfl rfl rfl rfl
      hstate']
    rw [hdb]
    cases prompt' content (some v) cs'.history <;> rfl
  all_goals
    simp [handle_message, handle_command, setCommandFrame,
      ProtocolMessage.create, ProtocolPayload.get_payload_type, hstate]

/-- Witness for C7 on Scenario B: `Set database sqlite:///demo.db`
rewrites the override and confirms; `Set role x` is silently
ignored. -/
theorem C7_set_command_witness :
    dictGet c6State.chat_states (chat_key "p" "a")
      = some (ChatState.mk "a" none [] 0) ∧
    ((handle_message (Config.mk 10 100 10000 3600) c6State 1
        (setCommandFrame .DATABASE "sqlite:///demo.db" "m3") "p" "a" 20
        noFresh failPrompt).1.chat_states
      = dictSet c6State.chat_states (chat_key "p" "a")
          (ChatState.mk "a" (some "sqlite:///demo.db") [] 0) ∧
    (handle_message (Config.mk 10 100 10000 3600) c6State 1
        (setCommandFrame .DATABASE "sqlite:///demo.db" "m3") "p" "a" 20
        noFresh failPrompt).2
      = [WsEvent.sent 1 (create_text_message .SYSTEM
          ("Database context set to " ++ "sqlite:///demo.db") "server"
          "client" (noFresh 0))]) ∧
    ((handle_message (Config.mk 10 100 10000 3600) c6State 1
        (setCommandFrame .ROLE "x" "m4") "p" "a" 20 noFresh
        failPrompt).1.chat_states = c6State.chat_states ∧
    (handle_message (Config.mk 10 100 10000 3600) c6State 1
        (setCommandFrame .ROLE "x" "m4") "p" "a" 20 noFresh
        failPrompt).2 = []) :=
  ⟨rfl,
    (C7_set_command (Config.mk 10 100 10000 3600) c6State 1 "p" "a" 20 noFresh
      failPrompt "sqlite:///demo.db" "m3" (ChatState.mk "a" none [] 0) rfl).1,
    (C7_set_command (Config.mk 10 100 10000 3600) c6State 1 "p" "a" 20 noFresh
      failPrompt "x" "m4" (ChatState.mk "a" none [] 0) rfl).2.2.1⟩

/-! ## Claim C3: the inactivity reaper -/

theorem dictGet_dictPop_none {α : Type} (m : List (ChatKey × α))
    (kp k : ChatKey) (h : dictGet m k = none) :
    dictGet (dictPop m kp) k = none := by
  by_cases he : k = kp
  · subst he
    exact dictGet_dictPop_self m k
  · rw [dictGet_dictPop_ne m he]
    exact h

theorem dictGet_mem {α : Type} {m : List (ChatKey × α)} {k : ChatKey} {v : α}
    (h : dictGet m k = some v) : (k, v) ∈ m := by
  unfold dictGet at h
  cases hf : List.find? (fun p => p.1 == k) m with
  | none => rw [hf] at h; simp at h
  | some q =>
    rw [hf] at h
    simp only [Option.map_some', Option.some.injEq] at h
    have hq := List.find?_some hf
    have hmem := List.mem_of_find?_eq_some hf
    have hk : q.1 = k := by simpa using hq
    have : (k, v) = q := by
      rw [← hk, ← h]
    rw [this]
    exact hmem

theorem foldl_cleanupStep_events_mono (keys : List ChatKey)
    (acc : ManagerState × List WsEvent) (e : WsEvent) (he : e ∈ acc.2) :
    e ∈ (keys.foldl cleanupExpiredStep acc).2 := by
  induction keys generalizing acc with
  | nil => exact he
  | cons k0 rest ih =>
    simp only [List.foldl_cons]
    exact ih (cleanupExpiredStep acc k0) (List.mem_append_left _ he)

theorem foldl_cleanupStep_preserves_none (keys : List ChatKey)
    (acc : ManagerState × List WsEvent) (k : ChatKey)
    (hc : dictGet acc.1.connections k = none)
    (hl : dictGet acc.1.last_activity k = none)
    (hs : dictGet acc.1.chat_states k = none) :
    dictGet (keys.foldl cleanupExpiredStep acc).1.connections k = none ∧
    dictGet (keys.foldl cleanupExpiredStep acc).1.last_activity k = none ∧
    dictGet (keys.foldl cleanupExpiredStep acc).1.chat_states k = none := by
  induction keys generalizing acc with
  | nil => exact ⟨hc, hl, hs⟩
  | cons k0 rest ih =>
    simp only [List.foldl_cons]
    exact ih (cleanupExpiredStep acc k0)
      (dictGet_dictPop_none _ k0 k hc)
      (dictGet_dictPop_none _ k0 k hl)
      (dictGet_dictPop_none _ k0 k hs)

theorem foldl_cleanupStep_processes (keys : List ChatKey)
    (acc : ManagerState × List WsEvent) (k : ChatKey)
    (hk : k ∈ keys) (hnd : keys.Nodup) :
    (dictGet (keys.foldl cleanupExpiredStep acc).1.connections k = none ∧
     dictGet (keys.foldl cleanupExpiredStep acc).1.last_activity k = none ∧
     dictGet (keys.foldl cleanupExpiredStep acc).1.chat_states k = none) ∧
    ∀ c ∈ (dictGet acc.1.connections k).getD [],
      WsEvent.closed c.websocket 1001 ∈ (keys.foldl cleanupExpiredStep acc).2 := by
  induction keys generalizing acc with
  | nil => cases hk
  | cons k0 rest ih =>
    simp only [List.foldl_cons]
    simp only [List.nodup_cons] at hnd
    rcases List.mem_cons.1 hk with heq | hmem
    · subst heq
      constructor
      · exact foldl_cleanupStep_preserves_none rest (cleanupExpiredStep acc k)
          k (dictGet_dictPop_self _ k) (dictGet_dictPop_self _ k)
          (dictGet_dictPop_self _ k)
      · intro c hc
        refine foldl_cleanupStep_events_mono rest (cleanupExpiredStep acc k)
          _ ?_
        exact List.mem_append_right _ (List.mem_map_of_mem _ hc)
    · have hne : ¬(k = k0) := fun hh => hnd.1 (hh ▸ hmem)
      have hih := ih (cleanupExpiredStep acc k0) hmem hnd.2
      refine ⟨hih.1, ?_⟩
      intro c hc
      refine hih.2 c ?_
      have : dictGet (cleanupExpiredStep acc k0).1.connections k
          = dictGet acc.1.connections k := dictGet_dictPop_ne _ hne
      rw [this]
      exact hc

theorem evictLoop_connections (cfg : Config) (now : Nat) :
    ∀ (fuel : Nat) (s : ManagerState),
      (evictLoop cfg now fuel s).connections = s.connections
  | 0, _ => rfl
  | Nat.succ n, s => by
    rw [evictLoop]
    split
    · split
      · rfl
      · split
        · split
          · exact evictLoop_connections cfg now n _
          · rfl
        · exact evictLoop_connections cfg now n _
    · rfl

theorem dictGet_cons_none_tail {α : Type} {k0 k : ChatKey} {v0 : α}
    {rest : List (ChatKey × α)} (h : dictGet ((k0, v0) :: rest) k = none) :
    dictGet rest k = none := by
  rw [dictGet_eq_none] at h ⊢
  intro p hp
  exact h p (List.mem_cons_of_mem _ hp)

theorem evictLoop_chat_states_none (cfg : Config) (now : Nat) :
    ∀ (fuel : Nat) (s : ManagerState) (k : ChatKey),
      dictGet s.chat_states k = none →
      dictGet (evictLoop cfg now fuel s).chat_states k = none
  | 0, _, _, h => h
  | Nat.succ n, s, k, h => by
    rw [evictLoop]
    split
    · split
      · exact h
      · rename_i oldest_key v rest heq
        rw [heq] at h
        split
        · split
          · exact evictLoop_chat_states_none cfg now n _ k
              (dictGet_cons_none_tail h)
          · rw [heq]
            exact h
        · exact evictLoop_chat_states_none cfg now n _ k
            (dictGet_cons_none_tail h)
    · exact h

theorem evictLoop_last_activity_none (cfg : Config) (now : Nat) :
    ∀ (fuel : Nat) (s : ManagerState) (k : ChatKey),
      dictGet s.last_activity k = none →
      dictGet (evictLoop cfg now fuel s).last_activity k = none
  | 0, _, _, h => h
  | Nat.succ n, s, k, h => by
    rw [evictLoop]
    split
    · split
      · exact h
      · split
        · split
          · exact evictLoop_last_activity_none cfg now n _ k
              (dictGet_dictPop_none _ _ k h)
          · exact h
        · exact evictLoop_last_activity_none cfg now n _ k h
    · exact h

/-- C3 (amended): for every chat key that *has an activity record*
older than the inactivity timeout, one run of the reaper sweep closes
every connection registered under the key with close code 1001 and
removes the key from the connection registry, the activity map and the
chat state store.  A key without an activity record — the situation
left behind once its last connection disconnects, since `disconnect`
pops the key from the activity map — is not touched by the expiry
sweep at all (see the counterexample); such an orphaned state is only
ever dropped by the over-capacity eviction path. -/
theorem C3_cleanup_expired (cfg : Config) (s : ManagerState) (now : Nat)
    (key : ChatKey) (t : Nat)
    (hnd : (s.last_activity.map Prod.fst).Nodup)
    (ht : dictGet s.last_activity key = some t)
    (hexp : cfg.inactivity_timeout < now - t) :
    dictGet (cleanup cfg s now).1.connections key = none ∧
    dictGet (cleanup cfg s now).1.last_activity key = none ∧
    dictGet (cleanup cfg s now).1.chat_states key = none ∧
    ∀ c ∈ (dictGet s.connections key).getD [],
      WsEvent.closed c.websocket 1001 ∈ (cleanup cfg s now).2 := by
  have hmem : (key, t) ∈ s.last_activity := dictGet_mem ht
  have hkeymem : key ∈ ((s.last_activity.filter
      (fun p => now - p.2 > cfg.inactivity_timeout)).map Prod.fst) := by
    refine List.mem_map.2 ⟨(key, t), ?_, rfl⟩
    refine List.mem_filter.2 ⟨hmem, ?_⟩
    simpa using hexp
  have hndexp : ((s.last_activity.filter
      (fun p => now - p.2 > cfg.inactivity_timeout)).map Prod.fst).Nodup := by
    refine List.Nodup.sublist ?_ hnd
    exact List.Sublist.map Prod.fst (List.filter_sublist _)
  have hmain := foldl_cleanupStep_processes
    ((s.last_activity.filter
      (fun p => now - p.2 > cfg.inactivity_timeout)).map Prod.fst)
    (s, []) key hkeymem hndexp
  have hcl : cleanup cfg s now
      = (evictLoop cfg now
          (((s.last_activity.filter
            (fun p => now - p.2 > cfg.inactivity_timeout)).map
              Prod.fst).foldl cleanupExpiredStep (s, [])).1.chat_states.length
          (((s.last_activity.filter
            (fun p => now - p.2 > cfg.inactivity_timeout)).map
              Prod.fst).foldl cleanupExpiredStep (s, [])).1,
        (((s.last_activity.filter
          (fun p => now - p.2 > cfg.inactivity_timeout)).map
            Prod.fst).foldl cleanupExpiredStep (s, [])).2) := rfl
  rw [hcl]
  refine ⟨?_, ?_, ?_, ?_⟩
  · rw [evictLoop_connections]
    exact hmain.1.1
  · exact evictLoop_last_activity_none cfg now _ _ key hmain.1.2.1
  · exact evictLoop_chat_states_none cfg now _ _ key hmain.1.2.2
  · exact hmain.2

/-- A single connection (websocket 1) on `("p","a")`, connected at
time 0, under the default configuration. -/
def c3State : ManagerState :=
  (connect (Config.mk 10 100 10000 3600) (ManagerState.mk [] [] []) 1 "p" "a"
    0 noFresh).1

/-- Witness for C3: at time 1000000 the key's activity record (time 0)
is far beyond the one-hour timeout; the sweep closes websocket 1 with
code 1001 and removes the key everywhere. -/
theorem C3_cleanup_expired_witness :
    ((c3State.last_activity.map Prod.fst).Nodup ∧
      dictGet c3State.last_activity "p:a" = some 0 ∧
      (Config.mk 10 100 10000 3600).inactivity_timeout < 1000000 - 0) ∧
    (dictGet (cleanup (Config.mk 10 100 10000 3600) c3State
        1000000).1.connections "p:a" = none ∧
      dictGet (cleanup (Config.mk 10 100 10000 3600) c3State
        1000000).1.last_activity "p:a" = none ∧
      dictGet (cleanup (Config.mk 10 100 10000 3600) c3State
        1000000).1.chat_states "p:a" = none ∧
      ∀ c ∈ (dictGet c3State.connections "p:a").getD [],
        WsEvent.closed c.websocket 1001
          ∈ (cleanup (Config.mk 10 100 10000 3600) c3State 1000000).2) :=
  ⟨⟨by decide, rfl, by decide⟩,
    C3_cleanup_expired (Config.mk 10 100 10000 3600) c3State 1000000 "p:a" 0
      (by decide) rfl (by decide)⟩

/-- The state after the only connection on `("p","a")` disconnects:
`disconnect` popped the key from the activity map, the chat state
remains. -/
def c3Disconnected : ManagerState := disconnect c3State 1 "p" "a"

/-- C3 counterexample: the key `p:a` last saw traffic at time 0 and
its only connection has disconnected; at time 1000000 (far beyond the
one-hour timeout) the reaper sweep removes nothing and closes nothing
— the chat state survives because `disconnect` removed the key's
activity record, so the sweep never considers it, contradicting the
claim that such a key is removed from the chat state store. -/
theorem C3_cex :
    dictGet c3Disconnected.last_activity "p:a" = none ∧
    (dictGet c3Disconnected.chat_states "p:a").isSome = true ∧
    (Config.mk 10 100 10000 3600).inactivity_timeout < 1000000 - 0 ∧
    (dictGet (cleanup (Config.mk 10 100 10000 3600) c3Disconnected
      1000000).1.chat_states "p:a").isSome = true ∧
    (cleanup (Config.mk 10 100 10000 3600) c3Disconnected 1000000).2 = [] :=
  ⟨rfl, rfl, by decide, rfl, rfl⟩

end QweryCore
